import Mathlib

/-!
Verification development for a two-paddle-per-side pong simulation
(source: src/main.py). The physics and round state machine are embedded
shallowly over the rationals:

* float arithmetic is idealised as exact rational arithmetic;
* pure rational computations of the source (paddle motion, AABB collision,
  wall bounce, event scheduling, goal detection) become Lean functions;
* computations involving square roots (the ball speed clamp, the capsule
  collision normal) become step relations in which the square root is an
  existentially quantified rational with its defining equation;
* the cosine and sine of the fixed 30-degree paddle tilt are parameters
  (c, s) constrained to a small rational interval containing the true
  values (TrigOK below), so every theorem quantified over that interval in
  particular covers the value the host math library computes;
* the random launch direction and angle of the ball are abstracted to a
  relation whose constraints are satisfied by every sample; the event
  registry holds a single event kind (fire), so event selection is
  deterministic, exactly as in the source.

Fields that the source assigns once in a constructor from a global
constant and never mutates (paddle length, thickness, speed, ball radius,
the horizontal paddle's fixed y) are referenced as constants rather than
stored in the state records; side-dependent init values (paddle x, the
horizontal paddle's min_x/max_x) are stored in the records, as in the
source.
-/

namespace Pong

/-! ## Global constants (module-level constants of src/main.py) -/

def SCREEN_WIDTH : ℚ := 1280
def SCREEN_HEIGHT : ℚ := 720
def LEFT_PANEL_WIDTH : ℚ := 260
def BOTTOM_PANEL_HEIGHT : ℚ := 120
def MARGIN : ℚ := 20

def FIELD_LEFT : ℚ := LEFT_PANEL_WIDTH + MARGIN
def FIELD_RIGHT : ℚ := SCREEN_WIDTH - MARGIN
def FIELD_BOTTOM : ℚ := BOTTOM_PANEL_HEIGHT + MARGIN
def FIELD_TOP : ℚ := SCREEN_HEIGHT - MARGIN

def FIELD_CENTER_X : ℚ := (FIELD_LEFT + FIELD_RIGHT) / 2
def FIELD_CENTER_Y : ℚ := (FIELD_BOTTOM + FIELD_TOP) / 2

def GRAVITY : ℚ := -1400
def BALL_RADIUS : ℚ := 12
def BALL_BASE_SPEED : ℚ := 650
def BALL_MAX_SPEED : ℚ := 1600
def BALL_BOUNCE_DAMP : ℚ := 98/100

def VERT_PADDLE_LENGTH : ℚ := 170
def VERT_PADDLE_THICKNESS : ℚ := 18

def HOR_PADDLE_WIDTH : ℚ := 100
def HOR_PADDLE_THICKNESS : ℚ := 18

/-- Both paddle classes set self.speed = 900.0 in their constructors and
never change it. -/
def PADDLE_SPEED : ℚ := 900

/-- HorizontalPaddle sets self.y = FIELD_BOTTOM + 220 in its constructor
and never changes it. -/
def HOR_PADDLE_Y : ℚ := FIELD_BOTTOM + 220

def EVENT_INTERVAL : ℚ := 10
def EVENT_WARNING_TIME : ℚ := 1
def FIRE_STUN_DURATION : ℚ := 3

/-- Interval of admissible values for the parameters c, s standing for
cos(radians(30)) and sin(radians(30)) as computed by the host math
library. The true values are approximately 0.8660254 and 0.5, well inside
the interval. -/
def TrigOK (c s : ℚ) : Prop :=
  21/25 ≤ c ∧ c ≤ 22/25 ∧ 49/100 ≤ s ∧ s ≤ 51/100

/-! ## Small helpers (module-level functions of src/main.py) -/

/-- clamp(v, a, b) = max(a, min(b, v)). -/
def clamp (v a b : ℚ) : ℚ := max a (min b v)

/-- reflect(vx, vy, nx, ny): reflection of a vector about a normal. -/
def reflect (vx vy nx ny : ℚ) : ℚ × ℚ :=
  (vx - 2 * (vx * nx + vy * ny) * nx, vy - 2 * (vx * nx + vy * ny) * ny)

/-! ## Materials -/

structure Material where
  name : String
  bounce : ℚ
  power : ℚ
  friction : ℚ
  burnable : Bool
deriving DecidableEq

/-- Lookup in the MATERIALS registry, rendered as the dict's access
function: some for the three registered names, none otherwise (the color
field is render-only and omitted). -/
def material_find (name : String) : Option Material :=
  if name = "дерево" then some ⟨"дерево", 95/100, 1, 1/10, true⟩
  else if name = "сталь" then some ⟨"сталь", 105/100, 105/100, 1/50, false⟩
  else if name = "резина" then some ⟨"резина", 12/10, 11/10, 1/20, false⟩
  else none

/-! ## Ball -/

structure Ball where
  x : ℚ
  y : ℚ
  vx : ℚ
  vy : ℚ
deriving DecidableEq

/-- Squared speed of the ball; the source compares
vec_length(vx, vy) = sqrt(vx*vx + vy*vy) against nonnegative thresholds,
which is equivalent to comparing this quantity against their squares. -/
def speedSq (b : Ball) : ℚ := b.vx ^ 2 + b.vy ^ 2

/-- Step relation for Ball.update(dt): gravity is applied to vy, the
position is integrated with the post-gravity velocity, and then, if the
speed exceeds BALL_MAX_SPEED, the velocity is rescaled to magnitude
BALL_MAX_SPEED in the same direction. The square root sp of the squared
speed is existentially quantified with its defining equation; the guard
sqrt(q) > M (with M at least 0) is rendered as q > M ^ 2. -/
def BallStep (dt : ℚ) (b b' : Ball) : Prop :=
  let vy1 := b.vy + GRAVITY * dt
  let x1 := b.x + b.vx * dt
  let y1 := b.y + vy1 * dt
  (b.vx ^ 2 + vy1 ^ 2 ≤ BALL_MAX_SPEED ^ 2 ∧ b' = ⟨x1, y1, b.vx, vy1⟩) ∨
  (∃ sp : ℚ, 0 ≤ sp ∧ sp ^ 2 = b.vx ^ 2 + vy1 ^ 2 ∧ BALL_MAX_SPEED < sp ∧
    b' = ⟨x1, y1, b.vx / sp * BALL_MAX_SPEED, vy1 / sp * BALL_MAX_SPEED⟩)

/-- Iterated Ball.update steps, front of the list first. -/
inductive BallRun : List ℚ → Ball → Ball → Prop where
  | nil (b : Ball) : BallRun [] b b
  | cons {d : ℚ} {ds : List ℚ} {b b1 b2 : Ball} :
      BallStep d b b1 → BallRun ds b1 b2 → BallRun (d :: ds) b b2

/-! ## Paddles -/

inductive Side where
  | left
  | right
deriving DecidableEq

structure VerticalPaddle where
  side : Side
  x : ℚ
  y : ℚ
  material_name : String
  enabled : Bool
  burned_out : Bool
deriving DecidableEq

def VerticalPaddle.init (side : Side) : VerticalPaddle :=
  { side := side
    x := match side with
         | Side.left => FIELD_LEFT + 60
         | Side.right => FIELD_RIGHT - 60
    y := FIELD_CENTER_Y
    material_name := "дерево"
    enabled := true
    burned_out := false }

def VerticalPaddle.set_material (name : String) (p : VerticalPaddle) :
    VerticalPaddle :=
  { p with material_name := name, burned_out := false }

/-- get_segment with theta = radians(30) on the left and
radians(180 - 30) on the right, whence cos(theta) is c on the left and
-c on the right while sin(theta) is s on both sides. -/
def VerticalPaddle.get_segment (c s : ℚ) (p : VerticalPaddle) :
    ℚ × ℚ × ℚ × ℚ :=
  let dx := (match p.side with | Side.left => c | Side.right => -c) *
    (VERT_PADDLE_LENGTH / 2)
  let dy := s * (VERT_PADDLE_LENGTH / 2)
  (p.x - dx, p.y - dy, p.x + dx, p.y + dy)

def VerticalPaddle.update (dt move_dir : ℚ) (p : VerticalPaddle) :
    VerticalPaddle :=
  if p.enabled = false ∨ p.burned_out = true then p
  else
    { p with
        y := clamp (p.y + move_dir * PADDLE_SPEED * dt)
               (FIELD_BOTTOM + VERT_PADDLE_LENGTH / 2)
               (FIELD_TOP - VERT_PADDLE_LENGTH / 2) }

structure HorizontalPaddle where
  side : Side
  min_x : ℚ
  max_x : ℚ
  x : ℚ
  material_name : String
  enabled : Bool
  burned_out : Bool
deriving DecidableEq

def HorizontalPaddle.init (side : Side) : HorizontalPaddle :=
  match side with
  | Side.left =>
      { side := side
        min_x := FIELD_LEFT + HOR_PADDLE_WIDTH / 2
        max_x := FIELD_CENTER_X - 40
        x := FIELD_LEFT + HOR_PADDLE_WIDTH / 2 + 50
        material_name := "дерево"
        enabled := true
        burned_out := false }
  | Side.right =>
      { side := side
        min_x := FIELD_CENTER_X + 40
        max_x := FIELD_RIGHT - HOR_PADDLE_WIDTH / 2
        x := FIELD_RIGHT - HOR_PADDLE_WIDTH / 2 - 50
        material_name := "дерево"
        enabled := true
        burned_out := false }

def HorizontalPaddle.set_material (name : String) (p : HorizontalPaddle) :
    HorizontalPaddle :=
  { p with material_name := name, burned_out := false }

def HorizontalPaddle.update (dt move_dir : ℚ) (p : HorizontalPaddle) :
    HorizontalPaddle :=
  if p.enabled = false ∨ p.burned_out = true then p
  else { p with x := clamp (p.x + move_dir * PADDLE_SPEED * dt) p.min_x p.max_x }

/-! ## Player -/

structure Player where
  side : Side
  is_cpu : Bool
  vert : VerticalPaddle
  horz : HorizontalPaddle
  score : ℕ
  move_vert : ℚ
  move_horz : ℚ
  stun_timer : ℚ
deriving DecidableEq

def Player.init (side : Side) (is_cpu : Bool) : Player :=
  { side := side
    is_cpu := is_cpu
    vert := VerticalPaddle.init side
    horz := HorizontalPaddle.init side
    score := 0
    move_vert := 0
    move_horz := 0
    stun_timer := 0 }

def Player.set_material (name : String) (p : Player) : Player :=
  { p with vert := p.vert.set_material name, horz := p.horz.set_material name }

def Player.get_material (p : Player) : String := p.vert.material_name

def Player.set_stun (duration : ℚ) (p : Player) : Player :=
  { p with stun_timer := max p.stun_timer duration }

def Player.cpu_control (ball : Ball) (p : Player) : Player :=
  let mv : ℚ :=
    if p.vert.y + 10 < ball.y then 1
    else if ball.y < p.vert.y - 10 then -1
    else 0
  let target_x := clamp ball.x p.horz.min_x p.horz.max_x
  let mh : ℚ :=
    if p.horz.x + 8 < target_x then 1
    else if target_x < p.horz.x - 8 then -1
    else 0
  { p with move_vert := mv, move_horz := mh }

def Player.update (dt : ℚ) (ball : Ball) (p : Player) : Player :=
  let p1 :=
    if 0 < p.stun_timer then
      { p with stun_timer := p.stun_timer - dt
               vert := { p.vert with enabled := false }
               horz := { p.horz with enabled := false }
               move_vert := 0
               move_horz := 0 }
    else
      { p with vert := { p.vert with enabled := true }
               horz := { p.horz with enabled := true } }
  let p2 := if p1.is_cpu then Player.cpu_control ball p1 else p1
  { p2 with vert := p2.vert.update dt p2.move_vert
            horz := p2.horz.update dt p2.move_horz }

/-! ## Collision resolver -/

/-- closest_point_on_segment: returns (cx, cy, t). -/
def closest_point_on_segment (px py x1 y1 x2 y2 : ℚ) : ℚ × ℚ × ℚ :=
  let vx := x2 - x1
  let vy := y2 - y1
  let denom := vx * vx + vy * vy
  if denom = 0 then (x1, y1, 0)
  else
    let t := clamp (((px - x1) * vx + (py - y1) * vy) / denom) 0 1
    (x1 + t * vx, y1 + t * vy, t)

/-- The overlap test of collide_ball_with_vertical_paddle: the distance
from the ball center to the closest point of the segment is at most
ball radius plus half the paddle thickness (stated on squares, which is
equivalent since both sides are nonnegative). -/
def vert_overlap (c s : ℚ) (p : VerticalPaddle) (b : Ball) : Prop :=
  let seg := p.get_segment c s
  let cpt := closest_point_on_segment b.x b.y seg.1 seg.2.1 seg.2.2.1 seg.2.2.2
  (b.x - cpt.1) ^ 2 + (b.y - cpt.2.1) ^ 2 ≤
    (BALL_RADIUS + VERT_PADDLE_THICKNESS / 2) ^ 2

instance (c s : ℚ) (p : VerticalPaddle) (b : Ball) :
    Decidable (vert_overlap c s p b) := by
  unfold vert_overlap
  infer_instance

/-- Step relation for collide_ball_with_vertical_paddle. On overlap, the
contact normal is normalize(dx, dy), rendered with an existentially
quantified square root L of the squared distance; normalize returns (0,0)
exactly when L = 0, in which case the source substitutes the fallback
normal (1, 0). The material is looked up only inside the collision branch,
as in the source. -/
def collide_ball_with_vertical_paddle (c s : ℚ) (p : VerticalPaddle)
    (b b' : Ball) (hit : Bool) : Prop :=
  if p.burned_out then b' = b ∧ hit = false
  else if vert_overlap c s p b then
    let seg := p.get_segment c s
    let cpt := closest_point_on_segment b.x b.y seg.1 seg.2.1 seg.2.2.1 seg.2.2.2
    let dx := b.x - cpt.1
    let dy := b.y - cpt.2.1
    ∃ (L nx ny : ℚ) (m : Material),
      0 ≤ L ∧ L ^ 2 = dx ^ 2 + dy ^ 2 ∧
      ((L = 0 ∧ nx = 1 ∧ ny = 0) ∨ (L ≠ 0 ∧ nx = dx / L ∧ ny = dy / L)) ∧
      material_find p.material_name = some m ∧
      (let pen := (BALL_RADIUS + VERT_PADDLE_THICKNESS / 2) - L
       let rv := reflect b.vx b.vy nx ny
       let rvx := rv.1 * m.bounce * m.power
       let rvy := rv.2 * m.bounce * m.power
       let tang := rvx * (-ny) + rvy * nx
       b' = ⟨b.x + nx * (pen + 1/2), b.y + ny * (pen + 1/2),
             (rvx - tang * m.friction * (-ny)) * BALL_BOUNCE_DAMP,
             (rvy - tang * m.friction * nx) * BALL_BOUNCE_DAMP⟩) ∧
      hit = true
  else b' = b ∧ hit = false

/-- collide_ball_with_horizontal_paddle. Fully rational, hence a function;
it returns none exactly when the collision branch is entered with a
material name absent from MATERIALS (where the source would raise
KeyError). -/
def collide_ball_with_horizontal_paddle (b : Ball) (p : HorizontalPaddle) :
    Option (Ball × Bool) :=
  if p.burned_out then some (b, false)
  else
    let half_w := HOR_PADDLE_WIDTH / 2
    let half_h := HOR_PADDLE_THICKNESS / 2
    if p.x - half_w - BALL_RADIUS ≤ b.x ∧ b.x ≤ p.x + half_w + BALL_RADIUS ∧
       HOR_PADDLE_Y - half_h - BALL_RADIUS ≤ b.y ∧
       b.y ≤ HOR_PADDLE_Y + half_h + BALL_RADIUS then
      match material_find p.material_name with
      | none => none
      | some m =>
        let ny : ℚ := if HOR_PADDLE_Y ≤ b.y then 1 else -1
        let newy : ℚ :=
          if HOR_PADDLE_Y ≤ b.y then HOR_PADDLE_Y + half_h + BALL_RADIUS + 1/2
          else HOR_PADDLE_Y - half_h - BALL_RADIUS - 1/2
        let rv := reflect b.vx b.vy 0 ny
        let rvy := (|rv.2| + 520) * (m.bounce * m.power)
        let rvx := rv.1 * m.bounce * (1 - m.friction)
        some (⟨b.x, newy, rvx * BALL_BOUNCE_DAMP, rvy * BALL_BOUNCE_DAMP⟩, true)
    else some (b, false)

/-! ## Round controller (GameView.on_update and helpers) -/

inductive RState where
  | countdown
  | playing
  | paused
deriving DecidableEq

structure EventManager where
  timer : ℚ
  next_event_in : ℚ
  warning_active : Bool
  warning_timer : ℚ
  current_warning_text : String
deriving DecidableEq

structure GameState where
  player_left : Player
  player_right : Player
  ball : Ball
  em : EventManager
  state : RState
  countdown : ℚ
  countdown_text : String
  pending_event : Bool
  last_event_text : String
  last_event_timer : ℚ
deriving DecidableEq

/-- FireEvent.apply restricted to one player: a player whose material is
the burnable wood has both paddles burned out and receives a stun. -/
def fire_apply (p : Player) : Player :=
  if p.vert.material_name = "дерево" then
    Player.set_stun FIRE_STUN_DURATION
      { p with vert := { p.vert with burned_out := true }
               horz := { p.horz with burned_out := true } }
  else p

/-- EventManager.update. The registry holds the single fire event, so
random.choice over it is deterministic and the pending slot is a Bool. -/
def em_update (dt : ℚ) (g : GameState) : GameState :=
  let timer2 := g.em.timer + dt
  let nei := g.em.next_event_in - dt
  let w1 : Bool × ℚ × String × Bool :=
    if g.em.warning_active = false ∧ nei ≤ EVENT_WARNING_TIME then
      (true, EVENT_WARNING_TIME, "событие через 1 секунду: пожар на карте", true)
    else (g.em.warning_active, g.em.warning_timer, g.em.current_warning_text,
          g.pending_event)
  let w2 : Bool × ℚ :=
    if w1.1 then (if w1.2.1 - dt ≤ 0 then false else true, w1.2.1 - dt)
    else (w1.1, w1.2.1)
  if nei ≤ 0 then
    { g with em := ⟨timer2, EVENT_INTERVAL, w2.1, w2.2, w1.2.2.1⟩
             player_left := fire_apply g.player_left
             player_right := fire_apply g.player_right
             pending_event := false
             last_event_text := "событие: пожар на карте"
             last_event_timer := 2 }
  else
    { g with em := ⟨timer2, nei, w2.1, w2.2, w1.2.2.1⟩
             pending_event := w1.2.2.2 }

/-- The decay of the last-event message at the top of on_update. -/
def msgDecay (dt : ℚ) (g : GameState) : GameState :=
  if 0 < g.last_event_timer then
    { g with last_event_timer := g.last_event_timer - dt }
  else g

def playersTick (dt : ℚ) (g : GameState) : GameState :=
  { g with player_left := Player.update dt g.ball g.player_left
           player_right := Player.update dt g.ball g.player_right }

def clear_player (p : Player) : Player :=
  { p with vert := { p.vert with burned_out := false }
           horz := { p.horz with burned_out := false }
           stun_timer := 0 }

/-- GameView._reset_round with first = False: the ball is recentered with
zero velocity (ball.reset places it at field center and the randomly drawn
launch velocity is immediately overwritten with zero), the round re-enters
countdown, burned_out and stun are cleared, and the scores are untouched. -/
def reset_round (g : GameState) : GameState :=
  { g with ball := ⟨FIELD_CENTER_X, FIELD_CENTER_Y, 0, 0⟩
           state := RState.countdown
           countdown := 3
           countdown_text := "3"
           player_left := clear_player g.player_left
           player_right := clear_player g.player_right }

/-- Goal detection at the end of a playing tick. -/
def goal_check (g : GameState) : GameState :=
  if g.ball.x + BALL_RADIUS < FIELD_LEFT then
    reset_round
      { g with player_right :=
          { g.player_right with score := g.player_right.score + 1 } }
  else if FIELD_RIGHT < g.ball.x - BALL_RADIUS then
    reset_round
      { g with player_left :=
          { g.player_left with score := g.player_left.score + 1 } }
  else g

/-- Ball.reset abstracted over the random draw: direction is +1 or -1 and
(ca, sa) stands for the cosine and sine of an angle drawn from
[-0.35, 0.35], so its sine has absolute value at most 0.35 and its cosine
is positive. -/
def launchRel (b' : Ball) : Prop :=
  b'.x = FIELD_CENTER_X ∧ b'.y = FIELD_CENTER_Y ∧
  ∃ d ca sa : ℚ, (d = 1 ∨ d = -1) ∧ ca ^ 2 + sa ^ 2 = 1 ∧ 0 < ca ∧
    |sa| ≤ 7/20 ∧
    b'.vx = d * BALL_BASE_SPEED * ca ∧ b'.vy = BALL_BASE_SPEED * sa * (3/10)

/-- The countdown branch of on_update: the countdown decreases, the label
follows the integer thresholds, play begins (with a ball launch) on
expiry, and both players still update; ball integration and the event
scheduler stay frozen. -/
def countdownRel (dt : ℚ) (g g' : GameState) : Prop :=
  let cd := g.countdown - dt
  if 2 < cd then g' = playersTick dt { g with countdown := cd, countdown_text := "3" }
  else if 1 < cd then g' = playersTick dt { g with countdown := cd, countdown_text := "2" }
  else if 0 < cd then g' = playersTick dt { g with countdown := cd, countdown_text := "1" }
  else ∃ b', launchRel b' ∧
    g' = playersTick dt { g with countdown := cd, state := RState.playing, ball := b' }

def wallBounce (b : Ball) : Ball :=
  if b.y - BALL_RADIUS ≤ FIELD_BOTTOM then
    { b with y := FIELD_BOTTOM + BALL_RADIUS + 1/2, vy := |b.vy| * (85/100) }
  else if FIELD_TOP ≤ b.y + BALL_RADIUS then
    { b with y := FIELD_TOP - BALL_RADIUS - 1/2, vy := -|b.vy| * (85/100) }
  else b

/-- The rally boost applied when any paddle collision occurred. -/
def boost (b : Ball) : Ball :=
  { b with vx := b.vx * (101/100), vy := b.vy * (101/100) }

/-- The playing branch of on_update: event scheduler, both players, ball
integration, wall bounce, the four paddle collisions in source order, the
rally boost, then goal detection. -/
def playingRel (c s dt : ℚ) (g g' : GameState) : Prop :=
  let g2 := playersTick dt (em_update dt g)
  ∃ (b1 b3 b4 b5 b6 : Ball) (h1 h2 h3 h4 : Bool),
    BallStep dt g2.ball b1 ∧
    collide_ball_with_vertical_paddle c s g2.player_left.vert (wallBounce b1) b3 h1 ∧
    collide_ball_with_vertical_paddle c s g2.player_right.vert b3 b4 h2 ∧
    collide_ball_with_horizontal_paddle b4 g2.player_left.horz = some (b5, h3) ∧
    collide_ball_with_horizontal_paddle b5 g2.player_right.horz = some (b6, h4) ∧
    g' = goal_check { g2 with ball := if h1 || h2 || h3 || h4 then boost b6 else b6 }

/-- The dt sanitisation at the top of GameView.on_update. -/
def usedDt (dt : ℚ) : ℚ := min dt (1/30)

/-- One call of GameView.on_update. -/
def GameStep (c s dt0 : ℚ) (g g' : GameState) : Prop :=
  let dt := usedDt dt0
  let g1 := msgDecay dt g
  if g.state = RState.paused then g' = g1
  else if g.state = RState.countdown then countdownRel dt g1 g'
  else playingRel c s dt g1 g'

/-! ## Closed forms and runs used by individual claims -/

/-- Closed form of a gravity-only fall from rest at field center: after
elapsed time T with accumulated sum of squared steps S. -/
def fallState (T S : ℚ) : Ball :=
  ⟨FIELD_CENTER_X, FIELD_CENTER_Y + GRAVITY * (T ^ 2 + S) / 2, 0, GRAVITY * T⟩

def sumsq (l : List ℚ) : ℚ := (l.map fun d => d ^ 2).sum

def hpStep (p : HorizontalPaddle) (pr : ℚ × ℚ) : HorizontalPaddle :=
  p.update pr.1 pr.2

/-- A sequence of HorizontalPaddle.update calls, each with its own dt and
move direction. -/
def hpRun (l : List (ℚ × ℚ)) (p : HorizontalPaddle) : HorizontalPaddle :=
  l.foldl hpStep p

/-- Bounds on paddle placement fields maintained by construction: each
vertical paddle's fixed x is at most FIELD_RIGHT - 60 = 1200, and each
horizontal paddle's x, min_x, max_x stay at most its side's max_x value
(730 on the left, 1210 on the right). The init states satisfy this and
no update escapes it. -/
def PaddleBounds (g : GameState) : Prop :=
  g.player_left.vert.x ≤ 1200 ∧ g.player_right.vert.x ≤ 1200 ∧
  g.player_left.horz.x ≤ 730 ∧ g.player_left.horz.min_x ≤ 730 ∧
  g.player_left.horz.max_x ≤ 730 ∧
  g.player_right.horz.x ≤ 1210 ∧ g.player_right.horz.min_x ≤ 1210 ∧
  g.player_right.horz.max_x ≤ 1210

/-- A concrete playing state: rubber materials everywhere, both players
idle humans, the ball at (380, 420) falling at 1200 units per second
straight onto the left horizontal paddle, event scheduler far from
firing. -/
def c9_state : GameState :=
  { player_left := ⟨Side.left, false,
      ⟨Side.left, 340, 530, "резина", true, false⟩,
      ⟨Side.left, 330, 730, 380, "резина", true, false⟩, 0, 0, 0, 0⟩
    player_right := ⟨Side.right, false,
      ⟨Side.right, 1200, 420, "резина", true, false⟩,
      ⟨Side.right, 810, 1210, 1160, "резина", true, false⟩, 0, 0, 0, 0⟩
    ball := ⟨380, 420, 0, -1200⟩
    em := ⟨0, 10, false, 0, ""⟩
    state := RState.playing
    countdown := 0
    countdown_text := "3"
    pending_event := false
    last_event_text := ""
    last_event_timer := 0 }

/-- A concrete playing state with the ball just beyond the right goal
line (x = 1272.5, so x - radius = 1260.5 > FIELD_RIGHT) but moving left
at 600 units per second; steel materials, idle human players, the right
vertical paddle parked at the bottom of its range. -/
def c4cx_state : GameState :=
  { player_left := ⟨Side.left, false,
      ⟨Side.left, 340, 420, "сталь", true, false⟩,
      ⟨Side.left, 330, 730, 380, "сталь", true, false⟩, 0, 0, 0, 0⟩
    player_right := ⟨Side.right, false,
      ⟨Side.right, 1200, 225, "сталь", true, false⟩,
      ⟨Side.right, 810, 1210, 1160, "сталь", true, false⟩, 0, 0, 0, 0⟩
    ball := ⟨2545/2, 420, -600, 0⟩
    em := ⟨0, 10, false, 0, ""⟩
    state := RState.playing
    countdown := 0
    countdown_text := "3"
    pending_event := false
    last_event_text := ""
    last_event_timer := 0 }

/-- A concrete playing state with the ball far beyond the right goal
line (x = 1300) and at rest; steel materials, idle human players. -/
def c4w_state : GameState :=
  { player_left := ⟨Side.left, false,
      ⟨Side.left, 340, 420, "сталь", true, false⟩,
      ⟨Side.left, 330, 730, 380, "сталь", true, false⟩, 0, 0, 0, 0⟩
    player_right := ⟨Side.right, false,
      ⟨Side.right, 1200, 225, "сталь", true, false⟩,
      ⟨Side.right, 810, 1210, 1160, "сталь", true, false⟩, 0, 0, 0, 0⟩
    ball := ⟨1300, 420, 0, 0⟩
    em := ⟨0, 10, false, 0, ""⟩
    state := RState.playing
    countdown := 0
    countdown_text := "3"
    pending_event := false
    last_event_text := ""
    last_event_timer := 0 }

/-! ## Numeric values of the derived field constants -/

theorem fieldLeft_eq : FIELD_LEFT = 280 := by
  norm_num [FIELD_LEFT, LEFT_PANEL_WIDTH, MARGIN]

theorem fieldRight_eq : FIELD_RIGHT = 1260 := by
  norm_num [FIELD_RIGHT, SCREEN_WIDTH, MARGIN]

theorem fieldBottom_eq : FIELD_BOTTOM = 140 := by
  norm_num [FIELD_BOTTOM, BOTTOM_PANEL_HEIGHT, MARGIN]

theorem fieldTop_eq : FIELD_TOP = 700 := by
  norm_num [FIELD_TOP, SCREEN_HEIGHT, MARGIN]

theorem fieldCenterX_eq : FIELD_CENTER_X = 770 := by
  norm_num [FIELD_CENTER_X, fieldLeft_eq, fieldRight_eq]

theorem fieldCenterY_eq : FIELD_CENTER_Y = 420 := by
  norm_num [FIELD_CENTER_Y, fieldBottom_eq, fieldTop_eq]

theorem horPaddleY_eq : HOR_PADDLE_Y = 360 := by
  norm_num [HOR_PADDLE_Y, fieldBottom_eq]

theorem gravity_eq : GRAVITY = -1400 := rfl

theorem ballMax_eq : BALL_MAX_SPEED = 1600 := rfl

theorem ballRadius_eq : BALL_RADIUS = 12 := rfl

theorem damp_eq : BALL_BOUNCE_DAMP = 98/100 := rfl

/-! ## Basic lemmas about clamp and the ball step -/

theorem le_clamp (v a b : ℚ) : a ≤ clamp v a b := le_max_left _ _

theorem clamp_le (v a b : ℚ) (h : a ≤ b) : clamp v a b ≤ b :=
  max_le h (min_le_left _ _)

theorem clamp_le_max (v a b : ℚ) : clamp v a b ≤ max a b :=
  max_le (le_max_left _ _) ((min_le_left _ _).trans (le_max_right _ _))

theorem min_le_clamp (v a b : ℚ) : min a b ≤ clamp v a b :=
  (min_le_left _ _).trans (le_max_left _ _)

theorem ballStep_x {dt : ℚ} {b b' : Ball} (h : BallStep dt b b') :
    b'.x = b.x + b.vx * dt := by
  rcases h with ⟨_, rfl⟩ | ⟨sp, _, _, _, rfl⟩ <;> rfl

theorem ballStep_y {dt : ℚ} {b b' : Ball} (h : BallStep dt b b') :
    b'.y = b.y + (b.vy + GRAVITY * dt) * dt := by
  rcases h with ⟨_, rfl⟩ | ⟨sp, _, _, _, rfl⟩ <;> rfl

/-- Rescaling a vector by M divided by sp multiplies the squared length
by M squared over sp squared. -/
theorem rescale_speedSq (u v sp M : ℚ) (hne : sp ≠ 0) :
    (u / sp * M) ^ 2 + (v / sp * M) ^ 2 = (u ^ 2 + v ^ 2) / sp ^ 2 * M ^ 2 := by
  field_simp
  ring

theorem ballStep_speedSq_le {dt : ℚ} {b b' : Ball} (h : BallStep dt b b') :
    speedSq b' ≤ BALL_MAX_SPEED ^ 2 := by
  rcases h with ⟨hg, rfl⟩ | ⟨sp, h0, hsq, hlt, rfl⟩
  · simpa [speedSq] using hg
  · have hsp : (0 : ℚ) < sp :=
      lt_of_le_of_lt (by norm_num [BALL_MAX_SPEED]) hlt
    have hne : sp ≠ 0 := ne_of_gt hsp
    have heq : speedSq ⟨b.x + b.vx * dt, b.y + (b.vy + GRAVITY * dt) * dt,
        b.vx / sp * BALL_MAX_SPEED,
        (b.vy + GRAVITY * dt) / sp * BALL_MAX_SPEED⟩ = BALL_MAX_SPEED ^ 2 := by
      show (b.vx / sp * BALL_MAX_SPEED) ^ 2 +
        ((b.vy + GRAVITY * dt) / sp * BALL_MAX_SPEED) ^ 2 = BALL_MAX_SPEED ^ 2
      rw [rescale_speedSq _ _ _ _ hne, ← hsq, div_self (pow_ne_zero 2 hne),
        one_mul]
    exact le_of_eq heq

/-! ## Lemmas about Player.update projections -/

theorem player_update_stun_timer (dt : ℚ) (ball : Ball) (p : Player) :
    (Player.update dt ball p).stun_timer =
      if 0 < p.stun_timer then p.stun_timer - dt else p.stun_timer := by
  by_cases h : 0 < p.stun_timer <;> by_cases hc : p.is_cpu <;>
    simp [Player.update, Player.cpu_control, h, hc]

/-! ## Claim theorems -/

/-- C1: after every Ball.update step, the position is integrated with the
post-gravity, pre-clamp velocity; the squared speed of the resulting
velocity is at most BALL_MAX_SPEED squared; the final velocity is a
positive scalar multiple (with factor at most 1) of the integrated
velocity, so the direction is preserved exactly; the factor is 1 when the
integrated speed does not exceed the cap, and the final speed equals the
cap exactly when it does. -/
theorem C1_speed_clamp (dt : ℚ) (b b' : Ball) (h : BallStep dt b b') :
    b'.x = b.x + b.vx * dt ∧
    b'.y = b.y + (b.vy + GRAVITY * dt) * dt ∧
    speedSq b' ≤ BALL_MAX_SPEED ^ 2 ∧
    ∃ k : ℚ, 0 < k ∧ k ≤ 1 ∧
      b'.vx = k * b.vx ∧ b'.vy = k * (b.vy + GRAVITY * dt) ∧
      (b.vx ^ 2 + (b.vy + GRAVITY * dt) ^ 2 ≤ BALL_MAX_SPEED ^ 2 → k = 1) ∧
      (BALL_MAX_SPEED ^ 2 < b.vx ^ 2 + (b.vy + GRAVITY * dt) ^ 2 →
        speedSq b' = BALL_MAX_SPEED ^ 2) := by
  refine ⟨ballStep_x h, ballStep_y h, ballStep_speedSq_le h, ?_⟩
  rcases h with ⟨hg, rfl⟩ | ⟨sp, h0, hsq, hlt, rfl⟩
  · exact ⟨1, by norm_num, le_refl 1, by simp, by simp, fun _ => rfl,
      fun hc => absurd hg (not_le.2 hc)⟩
  · have hsp : (0 : ℚ) < sp :=
      lt_of_le_of_lt (by norm_num [BALL_MAX_SPEED]) hlt
    have hne : sp ≠ 0 := ne_of_gt hsp
    refine ⟨BALL_MAX_SPEED / sp, ?_, ?_, by ring, by ring, ?_, ?_⟩
    · exact div_pos (by norm_num [BALL_MAX_SPEED]) hsp
    · exact (div_le_one hsp).2 hlt.le
    · intro hc
      exfalso
      have h2 : sp ^ 2 ≤ BALL_MAX_SPEED ^ 2 := by rw [hsq]; exact hc
      have hMpos : (0 : ℚ) < BALL_MAX_SPEED := by norm_num [BALL_MAX_SPEED]
      nlinarith
    · intro _
      show (b.vx / sp * BALL_MAX_SPEED) ^ 2 +
        ((b.vy + GRAVITY * dt) / sp * BALL_MAX_SPEED) ^ 2 = BALL_MAX_SPEED ^ 2
      rw [rescale_speedSq _ _ _ _ hne, ← hsq, div_self (pow_ne_zero 2 hne),
        one_mul]

/-- Witness for C1 at a concrete clamped step: speed 5000 is rescaled to
the cap 1600 with direction (3, 4) / 5 preserved. -/
theorem C1_speed_clamp_witness :
    BallStep 0 ⟨0, 0, 3000, 4000⟩ ⟨0, 0, 960, 1280⟩ ∧
    speedSq ⟨0, 0, 960, 1280⟩ ≤ BALL_MAX_SPEED ^ 2 := by
  have h : BallStep 0 ⟨0, 0, 3000, 4000⟩ ⟨0, 0, 960, 1280⟩ :=
    Or.inr ⟨5000, by norm_num, by norm_num [GRAVITY],
      by norm_num [BALL_MAX_SPEED],
      by norm_num [GRAVITY, BALL_MAX_SPEED, Ball.mk.injEq]⟩
  exact ⟨h, (C1_speed_clamp 0 _ _ h).2.2.1⟩

/-- C2 counterexample: on_update sanitises dt only by min(dt, 1/30); the
negative dt -1 is passed through unchanged and integrates the ball
backwards from rest at field center (vy becomes +1400, the position moves
by -1 time unit), rather than being rejected or clamped. -/
theorem C2_counterexample :
    usedDt (-1) = -1 ∧ usedDt (-1) < 0 ∧
    BallStep (usedDt (-1)) ⟨FIELD_CENTER_X, FIELD_CENTER_Y, 0, 0⟩
      ⟨FIELD_CENTER_X, FIELD_CENTER_Y - 1400, 0, 1400⟩ ∧
    (⟨FIELD_CENTER_X, FIELD_CENTER_Y - 1400, 0, 1400⟩ : Ball) ≠
      ⟨FIELD_CENTER_X, FIELD_CENTER_Y, 0, 0⟩ :=
  ⟨by norm_num [usedDt, min_def], by norm_num [usedDt, min_def],
   Or.inl ⟨by norm_num [usedDt, min_def, GRAVITY, BALL_MAX_SPEED],
     by norm_num [usedDt, min_def, GRAVITY, Ball.mk.injEq, fieldCenterY_eq]⟩,
   by norm_num [Ball.mk.injEq, fieldCenterY_eq]⟩

/-- C2 (amended): the dt used for integration is exactly min(dt, 1/30): it
is capped above by the fixed maximum 1/30, but any dt at most 1/30 —
including every negative dt — is propagated unchanged into the
simulation. -/
theorem C2_amended (dt : ℚ) :
    usedDt dt = min dt (1/30) ∧ usedDt dt ≤ 1/30 ∧
    (dt ≤ 1/30 → usedDt dt = dt) ∧ (1/30 ≤ dt → usedDt dt = 1/30) :=
  ⟨rfl, min_le_right _ _, fun h => min_eq_left h, fun h => min_eq_right h⟩

/-- Witness for C2 (amended) at dt = -1: the sanitised dt is -1 itself. -/
theorem C2_amended_witness : usedDt (-1) ≤ 1/30 ∧ usedDt (-1) = -1 :=
  ⟨(C2_amended (-1)).2.1, (C2_amended (-1)).2.2.1 (by norm_num)⟩

/-- C3 counterexample: set_material performs no validation. Selecting the
unregistered name results in no failure, the paddle's material_name
becomes the unknown name (the simulation state changes), and a burned-out
flag is cleared by the call. -/
theorem C3_counterexample :
    material_find "камень" = none ∧
    (Player.set_material "камень" (Player.init Side.left false)).vert.material_name =
      "камень" ∧
    (Player.set_material "камень" (Player.init Side.left false)).vert.material_name ≠
      (Player.init Side.left false).vert.material_name ∧
    (Player.set_material "камень"
      { Player.init Side.left false with
          vert := { (Player.init Side.left false).vert with burned_out := true }
        }).vert.burned_out = false :=
  ⟨by decide, by decide, by decide, by decide⟩

/-- C3 (amended): Player.set_material succeeds for every name, registered
or not: it unconditionally assigns the name to both paddles and clears
their burned_out flags, leaving score, stun and paddle positions
unchanged; an unknown name only fails later, when the material is looked
up during collision response. -/
theorem C3_amended (p : Player) (name : String) :
    (Player.set_material name p).vert.material_name = name ∧
    (Player.set_material name p).horz.material_name = name ∧
    (Player.set_material name p).vert.burned_out = false ∧
    (Player.set_material name p).horz.burned_out = false ∧
    (Player.set_material name p).score = p.score ∧
    (Player.set_material name p).stun_timer = p.stun_timer ∧
    (Player.set_material name p).vert.y = p.vert.y ∧
    (Player.set_material name p).horz.x = p.horz.x :=
  ⟨rfl, rfl, rfl, rfl, rfl, rfl, rfl, rfl⟩

/-- C6 counterexample: for a CPU-controlled player with stun_timer > 0,
Player.update does not leave the movement intents at zero: _cpu_control
runs after the stun branch and overwrites them (here move_vert becomes 1
because the ball is above the paddle's dead zone). -/
theorem C6_counterexample :
    (0 : ℚ) <
      (⟨Side.left, true, ⟨Side.left, 340, 420, "дерево", true, false⟩,
        ⟨Side.left, 330, 730, 380, "дерево", true, false⟩, 0, 0, 0, 1⟩ :
        Player).stun_timer ∧
    (⟨Side.left, true, ⟨Side.left, 340, 420, "дерево", true, false⟩,
      ⟨Side.left, 330, 730, 380, "дерево", true, false⟩, 0, 0, 0, 1⟩ :
      Player).is_cpu = true ∧
    (Player.update (1/30) ⟨380, 500, 0, 0⟩
      ⟨Side.left, true, ⟨Side.left, 340, 420, "дерево", true, false⟩,
       ⟨Side.left, 330, 730, 380, "дерево", true, false⟩, 0, 0, 0, 1⟩).move_vert =
      1 := by
  refine ⟨by norm_num, rfl, ?_⟩
  norm_num [Player.update, Player.cpu_control, clamp, min_def, max_def]

/-- C6 (amended): for a stunned player, Player.update decrements the
timer, disables both paddles and leaves their positions unchanged for the
tick; the movement intents end the tick at zero for a manually controlled
player, but for a CPU player _cpu_control subsequently overwrites them
(the disabled paddles still do not move). -/
theorem C6_amended (dt : ℚ) (ball : Ball) (p : Player)
    (h : 0 < p.stun_timer) :
    (Player.update dt ball p).stun_timer = p.stun_timer - dt ∧
    (Player.update dt ball p).vert.enabled = false ∧
    (Player.update dt ball p).horz.enabled = false ∧
    (Player.update dt ball p).vert.y = p.vert.y ∧
    (Player.update dt ball p).horz.x = p.horz.x ∧
    (p.is_cpu = false → (Player.update dt ball p).move_vert = 0 ∧
      (Player.update dt ball p).move_horz = 0) := by
  by_cases hc : p.is_cpu <;>
    simp [Player.update, Player.cpu_control, VerticalPaddle.update,
      HorizontalPaddle.update, h, hc]

/-- Witness for C6 (amended) on a concrete stunned manual player. -/
theorem C6_amended_witness :
    (0 : ℚ) <
      (⟨Side.left, false, ⟨Side.left, 340, 420, "дерево", true, false⟩,
        ⟨Side.left, 330, 730, 380, "дерево", true, false⟩, 0, 0, 0, 1⟩ :
        Player).stun_timer ∧
    (Player.update (1/30) ⟨770, 500, 0, 0⟩
      ⟨Side.left, false, ⟨Side.left, 340, 420, "дерево", true, false⟩,
       ⟨Side.left, 330, 730, 380, "дерево", true, false⟩, 0, 0, 0, 1⟩).vert.enabled =
      false :=
  ⟨by norm_num,
   (C6_amended (1/30) ⟨770, 500, 0, 0⟩ _ (by norm_num)).2.1⟩

/-- C7 counterexample: a stun timer of 1/100 and an update with the
in-range dt = 1/30 drive stun_timer to -7/300 < 0: the code subtracts dt
without flooring at zero, so the timer does become negative. -/
theorem C7_counterexample :
    (0 : ℚ) ≤ 1/30 ∧
    (0 : ℚ) <
      (⟨Side.left, false, ⟨Side.left, 340, 420, "дерево", true, false⟩,
        ⟨Side.left, 330, 730, 380, "дерево", true, false⟩, 0, 0, 0, 1/100⟩ :
        Player).stun_timer ∧
    (Player.update (1/30) ⟨770, 420, 0, 0⟩
      ⟨Side.left, false, ⟨Side.left, 340, 420, "дерево", true, false⟩,
       ⟨Side.left, 330, 730, 380, "дерево", true, false⟩, 0, 0, 0,
       1/100⟩).stun_timer < 0 := by
  refine ⟨by norm_num, by norm_num, ?_⟩
  rw [player_update_stun_timer]
  norm_num

/-- C7 (amended): with dt at least 0, one Player.update can push
stun_timer below zero by at most dt (it never drops below -dt from a
nonnegative value); once the timer is at most 0 it is never decremented
again, and set_stun sets the timer to the maximum of its current value
and the requested duration, so it never decreases the timer. -/
theorem C7_amended (p : Player) (ball : Ball) (dt d : ℚ) :
    (0 ≤ dt → 0 ≤ p.stun_timer → -dt ≤ (Player.update dt ball p).stun_timer) ∧
    (p.stun_timer ≤ 0 → (Player.update dt ball p).stun_timer = p.stun_timer) ∧
    (Player.set_stun d p).stun_timer = max p.stun_timer d ∧
    p.stun_timer ≤ (Player.set_stun d p).stun_timer := by
  refine ⟨?_, ?_, rfl, le_max_left _ _⟩
  · intro hdt hst
    rw [player_update_stun_timer]
    split
    · linarith
    · linarith
  · intro hst
    rw [player_update_stun_timer]
    rw [if_neg (by linarith)]

/-- Witness for C7 (amended) on a concrete player with stun 3 and
dt = 1/30. -/
theorem C7_amended_witness :
    -(1/30 : ℚ) ≤
      (Player.update (1/30) ⟨770, 420, 0, 0⟩
        ⟨Side.left, false, ⟨Side.left, 340, 420, "дерево", true, false⟩,
         ⟨Side.left, 330, 730, 380, "дерево", true, false⟩, 0, 0, 0,
         3⟩).stun_timer ∧
    (Player.set_stun 2
      ⟨Side.left, false, ⟨Side.left, 340, 420, "дерево", true, false⟩,
       ⟨Side.left, 330, 730, 380, "дерево", true, false⟩, 0, 0, 0,
       3⟩).stun_timer = max (3 : ℚ) 2 :=
  ⟨(C7_amended ⟨Side.left, false, ⟨Side.left, 340, 420, "дерево", true, false⟩,
      ⟨Side.left, 330, 730, 380, "дерево", true, false⟩, 0, 0, 0, 3⟩
      ⟨770, 420, 0, 0⟩ (1/30) 2).1 (by norm_num) (by norm_num),
   (C7_amended ⟨Side.left, false, ⟨Side.left, 340, 420, "дерево", true, false⟩,
      ⟨Side.left, 330, 730, 380, "дерево", true, false⟩, 0, 0, 0, 3⟩
      ⟨770, 420, 0, 0⟩ (1/30) 2).2.2.1⟩

/-! ## Horizontal paddle range invariants (for C10) -/

theorem hp_update_min_x (dt mv : ℚ) (p : HorizontalPaddle) :
    (HorizontalPaddle.update dt mv p).min_x = p.min_x := by
  unfold HorizontalPaddle.update
  split <;> rfl

theorem hp_update_max_x (dt mv : ℚ) (p : HorizontalPaddle) :
    (HorizontalPaddle.update dt mv p).max_x = p.max_x := by
  unfold HorizontalPaddle.update
  split <;> rfl

theorem hp_update_x_le (dt mv : ℚ) (p : HorizontalPaddle) :
    (HorizontalPaddle.update dt mv p).x ≤ max p.x (max p.min_x p.max_x) := by
  unfold HorizontalPaddle.update
  split
  · exact le_max_left _ _
  · exact le_trans (clamp_le_max _ _ _) (le_max_right _ _)

theorem hp_update_x_ge (dt mv : ℚ) (p : HorizontalPaddle) :
    min p.x (min p.min_x p.max_x) ≤ (HorizontalPaddle.update dt mv p).x := by
  unfold HorizontalPaddle.update
  split
  · exact min_le_left _ _
  · exact le_trans (min_le_right _ _) (le_trans (min_le_left _ _) (le_clamp _ _ _))

theorem hpRun_x_le (l : List (ℚ × ℚ)) :
    ∀ p : HorizontalPaddle, (hpRun l p).x ≤ max p.x (max p.min_x p.max_x) := by
  induction l with
  | nil => intro p; exact le_max_left _ _
  | cons a l ih =>
    intro p
    have h1 := ih (hpStep p a)
    have h2 : (hpStep p a).min_x = p.min_x := hp_update_min_x _ _ _
    have h3 : (hpStep p a).max_x = p.max_x := hp_update_max_x _ _ _
    have h4 := hp_update_x_le a.1 a.2 p
    calc (hpRun (a :: l) p).x
        = (hpRun l (hpStep p a)).x := rfl
      _ ≤ max (hpStep p a).x (max (hpStep p a).min_x (hpStep p a).max_x) := h1
      _ ≤ max p.x (max p.min_x p.max_x) := by
          rw [h2, h3]
          exact max_le h4 (le_max_right _ _)

theorem hpRun_x_ge (l : List (ℚ × ℚ)) :
    ∀ p : HorizontalPaddle, min p.x (min p.min_x p.max_x) ≤ (hpRun l p).x := by
  induction l with
  | nil => intro p; exact min_le_left _ _
  | cons a l ih =>
    intro p
    have h1 := ih (hpStep p a)
    have h2 : (hpStep p a).min_x = p.min_x := hp_update_min_x _ _ _
    have h3 : (hpStep p a).max_x = p.max_x := hp_update_max_x _ _ _
    have h4 := hp_update_x_ge a.1 a.2 p
    calc min p.x (min p.min_x p.max_x)
        ≤ min (hpStep p a).x (min (hpStep p a).min_x (hpStep p a).max_x) := by
          rw [h2, h3]
          exact le_min h4 (min_le_right _ _)
      _ ≤ (hpRun l (hpStep p a)).x := h1
      _ = (hpRun (a :: l) p).x := rfl

/-- C10: the left horizontal paddle's center x never exceeds
FIELD_CENTER_X - 40 over any update sequence from its initial state, yet
its right edge (x plus half the width of 100) can reach exactly 10 units
past the centerline, and does reach it; symmetrically the right paddle's
center stays at least FIELD_CENTER_X + 40 while its left edge can reach
10 units past the centerline on the other side. -/
theorem C10_centerline :
    (∀ l : List (ℚ × ℚ),
      (hpRun l (HorizontalPaddle.init Side.left)).x ≤ FIELD_CENTER_X - 40 ∧
      (hpRun l (HorizontalPaddle.init Side.left)).x + HOR_PADDLE_WIDTH / 2 ≤
        FIELD_CENTER_X + 10 ∧
      FIELD_CENTER_X + 40 ≤ (hpRun l (HorizontalPaddle.init Side.right)).x ∧
      FIELD_CENTER_X - 10 ≤
        (hpRun l (HorizontalPaddle.init Side.right)).x - HOR_PADDLE_WIDTH / 2) ∧
    (∃ l : List (ℚ × ℚ),
      (hpRun l (HorizontalPaddle.init Side.left)).x + HOR_PADDLE_WIDTH / 2 =
        FIELD_CENTER_X + 10) ∧
    (∃ l : List (ℚ × ℚ),
      (hpRun l (HorizontalPaddle.init Side.right)).x - HOR_PADDLE_WIDTH / 2 =
        FIELD_CENTER_X - 10) := by
  have hLv : max (HorizontalPaddle.init Side.left).x
      (max (HorizontalPaddle.init Side.left).min_x
        (HorizontalPaddle.init Side.left).max_x) = 730 := by
    norm_num [HorizontalPaddle.init, fieldLeft_eq, fieldCenterX_eq,
      HOR_PADDLE_WIDTH, max_def]
  have hRv : min (HorizontalPaddle.init Side.right).x
      (min (HorizontalPaddle.init Side.right).min_x
        (HorizontalPaddle.init Side.right).max_x) = 810 := by
    norm_num [HorizontalPaddle.init, fieldRight_eq, fieldCenterX_eq,
      HOR_PADDLE_WIDTH, min_def]
  refine ⟨fun l => ?_, ⟨[(1, 1)], ?_⟩, ⟨[(1, -1)], ?_⟩⟩
  · have hL := hpRun_x_le l (HorizontalPaddle.init Side.left)
    have hR := hpRun_x_ge l (HorizontalPaddle.init Side.right)
    rw [hLv] at hL
    rw [hRv] at hR
    rw [fieldCenterX_eq]
    norm_num [HOR_PADDLE_WIDTH]
    constructor
    · linarith
    · constructor
      · linarith
      · constructor <;> linarith
  · norm_num [hpRun, hpStep, List.foldl_cons, List.foldl_nil,
      HorizontalPaddle.update, HorizontalPaddle.init, clamp, min_def, max_def,
      fieldLeft_eq, fieldCenterX_eq, HOR_PADDLE_WIDTH, PADDLE_SPEED]
  · norm_num [hpRun, hpStep, List.foldl_cons, List.foldl_nil,
      HorizontalPaddle.update, HorizontalPaddle.init, clamp, min_def, max_def,
      fieldRight_eq, fieldCenterX_eq, HOR_PADDLE_WIDTH, PADDLE_SPEED]

/-! ## Gravity-only fall (for C8) -/

theorem ballRun_fall (dts : List ℚ) :
    ∀ (T S : ℚ) (b' : Ball), 0 ≤ T → T + dts.sum ≤ 8/7 →
      (∀ d ∈ dts, 0 ≤ d) → BallRun dts (fallState T S) b' →
      b' = fallState (T + dts.sum) (S + sumsq dts) := by
  induction dts with
  | nil =>
    intro T S b' _ _ _ hrun
    cases hrun
    simp [sumsq]
  | cons d ds ih =>
    intro T S b' hT hsum hpos hrun
    cases hrun with
    | @cons _ _ _ b1 _ hstep hrest =>
      have hd : 0 ≤ d := hpos d (List.mem_cons_self d ds)
      have hds : ∀ x ∈ ds, 0 ≤ x := fun x hx => hpos x (List.mem_cons_of_mem d hx)
      have hsums : 0 ≤ ds.sum := List.sum_nonneg hds
      have hsum' : (T + d) + ds.sum ≤ 8/7 := by
        simp only [List.sum_cons] at hsum
        linarith
      have hTd : 0 ≤ T + d := by linarith
      have hb1 : b1 = fallState (T + d) (S + d ^ 2) := by
        obtain ⟨hg, hb⟩ | ⟨sp, hsp0, hsq, hlt, hb⟩ := hstep
        · rw [hb]
          simp only [fallState]
          rw [Ball.mk.injEq]
          refine ⟨by ring, by ring, by ring, by ring⟩
        · exfalso
          have hTd87 : T + d ≤ 8/7 := by linarith
          have hsq' : sp ^ 2 = 1960000 * (T + d) ^ 2 := by
            rw [hsq]
            simp only [fallState, gravity_eq]
            ring
          have hlt' : (1600 : ℚ) < sp := by rw [ballMax_eq] at hlt; exact hlt
          nlinarith [mul_pos (sub_pos.2 hlt')
              (by linarith : (0 : ℚ) < sp + 1600),
            mul_nonneg (by linarith : (0 : ℚ) ≤ 8/7 - (T + d))
              (by linarith : (0 : ℚ) ≤ 8/7 + (T + d))]
      rw [hb1] at hrest
      have hrec := ih (T + d) (S + d ^ 2) b' hTd hsum' hds hrest
      rw [hrec]
      have e2 : sumsq (d :: ds) = d ^ 2 + sumsq ds := by simp [sumsq]
      simp only [List.sum_cons, e2]
      congr 1
      · ring
      · ring

/-- C8 counterexample: a single Ball.update step of dt = 1 from rest at
field center (total elapsed time t = 1, no collisions, no clamp engaged)
gives vy = g*t exactly but y = center_y - 1400, whereas the claimed
closed form center_y + g*t^2/2 equals center_y - 700: the discrete
integrator adds g*(sum of squared steps)/2, which is not a floating-point
rounding effect. -/
theorem C8_counterexample :
    (∀ d ∈ [(1 : ℚ)], 0 ≤ d) ∧ ([(1 : ℚ)].sum = 1) ∧
    BallRun [(1 : ℚ)] ⟨FIELD_CENTER_X, FIELD_CENTER_Y, 0, 0⟩
      ⟨FIELD_CENTER_X, FIELD_CENTER_Y - 1400, 0, -1400⟩ ∧
    (⟨FIELD_CENTER_X, FIELD_CENTER_Y - 1400, 0, -1400⟩ : Ball).vy =
      GRAVITY * 1 ∧
    (⟨FIELD_CENTER_X, FIELD_CENTER_Y - 1400, 0, -1400⟩ : Ball).y ≠
      FIELD_CENTER_Y + GRAVITY * 1 ^ 2 / 2 := by
  refine ⟨by norm_num, by norm_num, ?_, by norm_num [gravity_eq], ?_⟩
  · exact BallRun.cons
      (Or.inl ⟨by norm_num [gravity_eq, ballMax_eq],
        by norm_num [gravity_eq, Ball.mk.injEq, fieldCenterY_eq]⟩)
      (BallRun.nil _)
  · norm_num [gravity_eq, fieldCenterY_eq]

/-- C8 (amended): from rest at field center, over any sequence of
nonnegative Ball.update steps with total elapsed time at most 8/7 (so the
speed cap is never reached), the velocity obeys vy = g*t exactly, but the
position obeys y = center_y + g*(t^2 + sum of squared steps)/2 exactly:
the claimed y = center_y + g*t^2/2 is off by g*(sum of squared steps)/2,
a first-order integration error, not a floating-point tolerance. -/
theorem C8_amended (dts : List ℚ) (b' : Ball)
    (hpos : ∀ d ∈ dts, 0 ≤ d) (hsum : dts.sum ≤ 8/7)
    (hrun : BallRun dts ⟨FIELD_CENTER_X, FIELD_CENTER_Y, 0, 0⟩ b') :
    b'.vx = 0 ∧ b'.x = FIELD_CENTER_X ∧
    b'.vy = GRAVITY * dts.sum ∧
    b'.y = FIELD_CENTER_Y + GRAVITY * (dts.sum ^ 2 + sumsq dts) / 2 := by
  have h0 : (⟨FIELD_CENTER_X, FIELD_CENTER_Y, 0, 0⟩ : Ball) = fallState 0 0 := by
    simp only [fallState]
    rw [Ball.mk.injEq]
    refine ⟨by ring, by ring, by ring, by ring⟩
  rw [h0] at hrun
  have hfin := ballRun_fall dts 0 0 b' le_rfl (by simpa using hsum) hpos hrun
  rw [hfin]
  refine ⟨rfl, rfl, ?_, ?_⟩
  · simp only [fallState]
    ring
  · simp only [fallState]
    ring

/-- Witness for C8 (amended) with the two half-unit steps 1/2, 1/2. -/
theorem C8_amended_witness :
    BallRun [1/2, 1/2] ⟨FIELD_CENTER_X, FIELD_CENTER_Y, 0, 0⟩
      ⟨FIELD_CENTER_X, FIELD_CENTER_Y - 1050, 0, -1400⟩ ∧
    (⟨FIELD_CENTER_X, FIELD_CENTER_Y - 1050, 0, -1400⟩ : Ball).vy =
      GRAVITY * ([(1 : ℚ)/2, 1/2].sum) ∧
    (⟨FIELD_CENTER_X, FIELD_CENTER_Y - 1050, 0, -1400⟩ : Ball).y =
      FIELD_CENTER_Y + GRAVITY * (([(1 : ℚ)/2, 1/2].sum) ^ 2 + sumsq [1/2, 1/2]) / 2 := by
  have run : BallRun [1/2, 1/2] ⟨FIELD_CENTER_X, FIELD_CENTER_Y, 0, 0⟩
      ⟨FIELD_CENTER_X, FIELD_CENTER_Y - 1050, 0, -1400⟩ := by
    refine BallRun.cons
      (show BallStep (1/2) ⟨FIELD_CENTER_X, FIELD_CENTER_Y, 0, 0⟩
          ⟨FIELD_CENTER_X, FIELD_CENTER_Y - 350, 0, -700⟩ from
        Or.inl ⟨by norm_num [gravity_eq, ballMax_eq],
          by norm_num [gravity_eq, Ball.mk.injEq, fieldCenterY_eq]⟩) ?_
    exact BallRun.cons
      (Or.inl ⟨by norm_num [gravity_eq, ballMax_eq],
        by norm_num [gravity_eq, Ball.mk.injEq, fieldCenterY_eq]⟩)
      (BallRun.nil _)
  exact ⟨run, (C8_amended [1/2, 1/2] _ (by norm_num) (by norm_num) run).2.2⟩

/-! ## Collision resolver lemmas -/

theorem material_find_cases {name : String} {m : Material}
    (h : material_find name = some m) :
    m = ⟨"дерево", 95/100, 1, 1/10, true⟩ ∨
    m = ⟨"сталь", 105/100, 105/100, 1/50, false⟩ ∨
    m = ⟨"резина", 12/10, 11/10, 1/20, false⟩ := by
  unfold material_find at h
  split at h
  · exact Or.inl (Option.some.inj h).symm
  · split at h
    · exact Or.inr (Or.inl (Option.some.inj h).symm)
    · split at h
      · exact Or.inr (Or.inr (Option.some.inj h).symm)
      · cases h

theorem reflect_vertical_fst (vx vy ny : ℚ) : (reflect vx vy 0 ny).1 = vx := by
  simp [reflect]

theorem reflect_vertical_snd (vx vy ny : ℚ) (h : ny * ny = 1) :
    (reflect vx vy 0 ny).2 = -vy := by
  simp only [reflect]
  have harg : vy - 2 * (vx * 0 + vy * ny) * ny = vy - 2 * vy * (ny * ny) := by
    ring
  rw [harg, h]
  ring

/-- Evaluation of the horizontal paddle collision on a hit: the ball is
repositioned just outside the box along the chosen vertical normal, the
vertical velocity becomes the absolute value of the reflected vy plus the
520 upkick, scaled by bounce times power and the global damping, and the
horizontal velocity is scaled by bounce, 1 - friction and the damping. -/
theorem horz_collide_hit {b : Ball} {p : HorizontalPaddle} {m : Material}
    (hb : p.burned_out = false)
    (hm : material_find p.material_name = some m)
    (hg : p.x - HOR_PADDLE_WIDTH / 2 - BALL_RADIUS ≤ b.x ∧
      b.x ≤ p.x + HOR_PADDLE_WIDTH / 2 + BALL_RADIUS ∧
      HOR_PADDLE_Y - HOR_PADDLE_THICKNESS / 2 - BALL_RADIUS ≤ b.y ∧
      b.y ≤ HOR_PADDLE_Y + HOR_PADDLE_THICKNESS / 2 + BALL_RADIUS) :
    collide_ball_with_horizontal_paddle b p =
      some (⟨b.x,
        (if HOR_PADDLE_Y ≤ b.y then
           HOR_PADDLE_Y + HOR_PADDLE_THICKNESS / 2 + BALL_RADIUS + 1/2
         else HOR_PADDLE_Y - HOR_PADDLE_THICKNESS / 2 - BALL_RADIUS - 1/2),
        b.vx * m.bounce * (1 - m.friction) * BALL_BOUNCE_DAMP,
        (|b.vy| + 520) * (m.bounce * m.power) * BALL_BOUNCE_DAMP⟩, true) := by
  unfold collide_ball_with_horizontal_paddle
  rw [if_neg (by simp [hb]), if_pos hg, hm]
  by_cases hy : HOR_PADDLE_Y ≤ b.y
  · simp only [if_pos hy, reflect_vertical_fst,
      reflect_vertical_snd b.vx b.vy 1 (by norm_num), abs_neg]
  · simp only [if_neg hy, reflect_vertical_fst,
      reflect_vertical_snd b.vx b.vy (-1) (by norm_num), abs_neg]

theorem horz_collide_miss_x {b : Ball} {p : HorizontalPaddle}
    (h : p.x + HOR_PADDLE_WIDTH / 2 + BALL_RADIUS < b.x) :
    collide_ball_with_horizontal_paddle b p = some (b, false) := by
  unfold collide_ball_with_horizontal_paddle
  by_cases hb : p.burned_out = true
  · rw [if_pos hb]
  · rw [if_neg hb, if_neg]
    rintro ⟨-, h2, -, -⟩
    linarith

theorem horz_collide_miss_y_above {b : Ball} {p : HorizontalPaddle}
    (h : HOR_PADDLE_Y + HOR_PADDLE_THICKNESS / 2 + BALL_RADIUS < b.y) :
    collide_ball_with_horizontal_paddle b p = some (b, false) := by
  unfold collide_ball_with_horizontal_paddle
  by_cases hb : p.burned_out = true
  · rw [if_pos hb]
  · rw [if_neg hb, if_neg]
    rintro ⟨-, -, -, h4⟩
    linarith

/-- C5 counterexample: a ball below a non-burned wooden horizontal paddle
(so the chosen normal is -y and the ball is repositioned below the box)
leaves the collision with a strictly positive vertical velocity
(|reflected vy| + 520 kick, scaled by positive coefficients), i.e. moving
upward, back into the paddle — not away along the chosen normal. -/
theorem C5_counterexample :
    (⟨380, 350, 0, 200⟩ : Ball).y < HOR_PADDLE_Y ∧
    collide_ball_with_horizontal_paddle ⟨380, 350, 0, 200⟩
      ⟨Side.left, 330, 730, 380, "дерево", true, false⟩ =
      some (⟨380, 677/2, 0, 16758/25⟩, true) ∧
    (0 : ℚ) < 16758/25 := by
  refine ⟨by norm_num [horPaddleY_eq], ?_, by norm_num⟩
  rw [horz_collide_hit (m := ⟨"дерево", 95/100, 1, 1/10, true⟩) rfl
    (by simp [material_find])
    (by norm_num [horPaddleY_eq, HOR_PADDLE_WIDTH, HOR_PADDLE_THICKNESS,
      ballRadius_eq])]
  rw [if_neg (by norm_num [horPaddleY_eq])]
  norm_num [horPaddleY_eq, HOR_PADDLE_THICKNESS, ballRadius_eq, damp_eq,
    Ball.mk.injEq]

/-- C5 (amended): on every collision of the ball with a non-burned-out
horizontal paddle whose material is registered, the ball is repositioned
just outside the box along the chosen vertical normal (+y when the ball
center is at or above the paddle center, else -y), the vertical velocity
is forced to |reflected vy| + 520 scaled by bounce times power and the
global damping, and that vertical velocity is strictly positive — so the
ball always leaves upward: away from the paddle for hits from above, but
back into the paddle for hits from below, where the chosen normal is
-y. -/
theorem C5_amended (b : Ball) (p : HorizontalPaddle) (m : Material)
    (hb : p.burned_out = false)
    (hm : material_find p.material_name = some m)
    (hg : p.x - HOR_PADDLE_WIDTH / 2 - BALL_RADIUS ≤ b.x ∧
      b.x ≤ p.x + HOR_PADDLE_WIDTH / 2 + BALL_RADIUS ∧
      HOR_PADDLE_Y - HOR_PADDLE_THICKNESS / 2 - BALL_RADIUS ≤ b.y ∧
      b.y ≤ HOR_PADDLE_Y + HOR_PADDLE_THICKNESS / 2 + BALL_RADIUS) :
    collide_ball_with_horizontal_paddle b p =
      some (⟨b.x,
        (if HOR_PADDLE_Y ≤ b.y then
           HOR_PADDLE_Y + HOR_PADDLE_THICKNESS / 2 + BALL_RADIUS + 1/2
         else HOR_PADDLE_Y - HOR_PADDLE_THICKNESS / 2 - BALL_RADIUS - 1/2),
        b.vx * m.bounce * (1 - m.friction) * BALL_BOUNCE_DAMP,
        (|b.vy| + 520) * (m.bounce * m.power) * BALL_BOUNCE_DAMP⟩, true) ∧
    0 < (|b.vy| + 520) * (m.bounce * m.power) * BALL_BOUNCE_DAMP := by
  refine ⟨horz_collide_hit hb hm hg, ?_⟩
  have habs : (0 : ℚ) ≤ |b.vy| := abs_nonneg _
  rcases material_find_cases hm with h | h | h <;> subst h <;>
    · rw [damp_eq]
      nlinarith

/-- Witness for C5 (amended): a wooden paddle hit from above with
incoming velocity (100, -300). -/
theorem C5_amended_witness :
    collide_ball_with_horizontal_paddle ⟨380, 365, 100, -300⟩
      ⟨Side.left, 330, 730, 380, "дерево", true, false⟩ =
      some (⟨(⟨380, 365, 100, -300⟩ : Ball).x,
        (if HOR_PADDLE_Y ≤ (⟨380, 365, 100, -300⟩ : Ball).y then
           HOR_PADDLE_Y + HOR_PADDLE_THICKNESS / 2 + BALL_RADIUS + 1/2
         else HOR_PADDLE_Y - HOR_PADDLE_THICKNESS / 2 - BALL_RADIUS - 1/2),
        (⟨380, 365, 100, -300⟩ : Ball).vx *
          (⟨"дерево", 95/100, 1, 1/10, true⟩ : Material).bounce *
          (1 - (⟨"дерево", 95/100, 1, 1/10, true⟩ : Material).friction) *
          BALL_BOUNCE_DAMP,
        (|(⟨380, 365, 100, -300⟩ : Ball).vy| + 520) *
          ((⟨"дерево", 95/100, 1, 1/10, true⟩ : Material).bounce *
            (⟨"дерево", 95/100, 1, 1/10, true⟩ : Material).power) *
          BALL_BOUNCE_DAMP⟩, true) ∧
    0 < (|(⟨380, 365, 100, -300⟩ : Ball).vy| + 520) *
      ((⟨"дерево", 95/100, 1, 1/10, true⟩ : Material).bounce *
        (⟨"дерево", 95/100, 1, 1/10, true⟩ : Material).power) *
      BALL_BOUNCE_DAMP :=
  C5_amended ⟨380, 365, 100, -300⟩ ⟨Side.left, 330, 730, 380, "дерево", true, false⟩
    ⟨"дерево", 95/100, 1, 1/10, true⟩ rfl (by simp [material_find])
    (by norm_num [horPaddleY_eq, HOR_PADDLE_WIDTH, HOR_PADDLE_THICKNESS,
      ballRadius_eq])

/-! ## Vertical capsule collision: miss lemmas -/

theorem convex_le (x1 x2 t : ℚ) (h0 : 0 ≤ t) (h1 : t ≤ 1) :
    x1 + t * (x2 - x1) ≤ max x1 x2 := by
  rcases le_total x1 x2 with hc | hc
  · refine le_trans ?_ (le_max_right x1 x2)
    nlinarith
  · refine le_trans ?_ (le_max_left x1 x2)
    nlinarith

theorem closest_point_fst_le (px py x1 y1 x2 y2 : ℚ) :
    (closest_point_on_segment px py x1 y1 x2 y2).1 ≤ max x1 x2 := by
  simp only [closest_point_on_segment]
  split
  · exact le_max_left _ _
  · exact convex_le _ _ _ (le_clamp _ _ _) (clamp_le _ _ _ (by norm_num))

theorem collide_vert_miss_intro {c s : ℚ} {p : VerticalPaddle} {b : Ball}
    (h : ¬ vert_overlap c s p b) :
    collide_ball_with_vertical_paddle c s p b b false := by
  unfold collide_ball_with_vertical_paddle
  by_cases hb : p.burned_out = true
  · rw [if_pos hb]
    exact ⟨rfl, rfl⟩
  · rw [if_neg hb, if_neg h]
    exact ⟨rfl, rfl⟩

theorem collide_vert_miss_elim {c s : ℚ} {p : VerticalPaddle} {b b' : Ball}
    {hit : Bool}
    (hcol : collide_ball_with_vertical_paddle c s p b b' hit)
    (h : ¬ vert_overlap c s p b) : b' = b ∧ hit = false := by
  unfold collide_ball_with_vertical_paddle at hcol
  by_cases hb : p.burned_out = true
  · rw [if_pos hb] at hcol
    exact hcol
  · rw [if_neg hb, if_neg h] at hcol
    exact hcol

theorem vert_overlap_far_core (b : Ball) (x1 y1 x2 y2 : ℚ)
    (h1 : x1 ≤ 1274 + 4/5) (h2 : x2 ≤ 1274 + 4/5) (hbx : 1297 ≤ b.x)
    (hov : (b.x - (closest_point_on_segment b.x b.y x1 y1 x2 y2).1) ^ 2 +
      (b.y - (closest_point_on_segment b.x b.y x1 y1 x2 y2).2.1) ^ 2 ≤ 441) :
    False := by
  have hcx := closest_point_fst_le b.x b.y x1 y1 x2 y2
  have hmax : max x1 x2 ≤ 1274 + 4/5 := max_le h1 h2
  have hd : 22 ≤ b.x - (closest_point_on_segment b.x b.y x1 y1 x2 y2).1 := by
    linarith
  nlinarith [sq_nonneg (b.y - (closest_point_on_segment b.x b.y x1 y1 x2 y2).2.1),
    hd]

/-- A ball whose x is at least 1297 cannot overlap a vertical paddle whose
center x is at most 1200, for any admissible tilt parameters: the whole
segment lies left of x = 1274.8 while the collision radius is 21. -/
theorem vert_overlap_far {c s : ℚ} {p : VerticalPaddle} {b : Ball}
    (htr : TrigOK c s) (hpx : p.x ≤ 1200) (hbx : 1297 ≤ b.x) :
    ¬ vert_overlap c s p b := by
  obtain ⟨hc1, hc2, hs1, hs2⟩ := htr
  intro hov
  unfold vert_overlap at hov
  have hrr : ((BALL_RADIUS + VERT_PADDLE_THICKNESS / 2 : ℚ)) ^ 2 = 441 := by
    norm_num [ballRadius_eq, VERT_PADDLE_THICKNESS]
  rcases hps : p.side with _ | _
  · have hseg : p.get_segment c s =
        (p.x - c * 85, p.y - s * 85, p.x + c * 85, p.y + s * 85) := by
      unfold VerticalPaddle.get_segment
      rw [hps]
      norm_num [VERT_PADDLE_LENGTH]
    rw [hseg, hrr] at hov
    exact vert_overlap_far_core b _ _ _ _ (by linarith) (by linarith) hbx hov
  · have hseg : p.get_segment c s =
        (p.x + c * 85, p.y - s * 85, p.x - c * 85, p.y + s * 85) := by
      unfold VerticalPaddle.get_segment
      rw [hps]
      norm_num [VERT_PADDLE_LENGTH]
      ring
    rw [hseg, hrr] at hov
    exact vert_overlap_far_core b _ _ _ _ (by linarith) (by linarith) hbx hov

/-! ## Per-tick state preservation lemmas -/

theorem vp_update_x (dt mv : ℚ) (q : VerticalPaddle) :
    (VerticalPaddle.update dt mv q).x = q.x := by
  unfold VerticalPaddle.update
  split <;> rfl

theorem wallBounce_x (b : Ball) : (wallBounce b).x = b.x := by
  unfold wallBounce
  split
  · rfl
  · split <;> rfl

theorem msgDecay_ball (dt : ℚ) (g : GameState) : (msgDecay dt g).ball = g.ball := by
  unfold msgDecay
  split <;> rfl

theorem msgDecay_player_left (dt : ℚ) (g : GameState) :
    (msgDecay dt g).player_left = g.player_left := by
  unfold msgDecay
  split <;> rfl

theorem msgDecay_player_right (dt : ℚ) (g : GameState) :
    (msgDecay dt g).player_right = g.player_right := by
  unfold msgDecay
  split <;> rfl

theorem fire_apply_score (p : Player) : (fire_apply p).score = p.score := by
  unfold fire_apply Player.set_stun
  split <;> rfl

theorem fire_apply_vert_x (p : Player) : (fire_apply p).vert.x = p.vert.x := by
  unfold fire_apply Player.set_stun
  split <;> rfl

theorem fire_apply_horz_x (p : Player) : (fire_apply p).horz.x = p.horz.x := by
  unfold fire_apply Player.set_stun
  split <;> rfl

theorem fire_apply_horz_min_x (p : Player) :
    (fire_apply p).horz.min_x = p.horz.min_x := by
  unfold fire_apply Player.set_stun
  split <;> rfl

theorem fire_apply_horz_max_x (p : Player) :
    (fire_apply p).horz.max_x = p.horz.max_x := by
  unfold fire_apply Player.set_stun
  split <;> rfl

theorem em_update_ball (dt : ℚ) (g : GameState) :
    (em_update dt g).ball = g.ball := by
  simp only [em_update]
  split <;> rfl

theorem em_update_player_left (dt : ℚ) (g : GameState) :
    (em_update dt g).player_left = fire_apply g.player_left ∨
    (em_update dt g).player_left = g.player_left := by
  simp only [em_update]
  split
  · exact Or.inl rfl
  · exact Or.inr rfl

theorem em_update_player_right (dt : ℚ) (g : GameState) :
    (em_update dt g).player_right = fire_apply g.player_right ∨
    (em_update dt g).player_right = g.player_right := by
  simp only [em_update]
  split
  · exact Or.inl rfl
  · exact Or.inr rfl

theorem player_update_score (dt : ℚ) (ball : Ball) (p : Player) :
    (Player.update dt ball p).score = p.score := by
  by_cases h : 0 < p.stun_timer <;> by_cases hc : p.is_cpu <;>
    simp [Player.update, Player.cpu_control, h, hc]

theorem player_update_vert_x (dt : ℚ) (ball : Ball) (p : Player) :
    (Player.update dt ball p).vert.x = p.vert.x := by
  by_cases h : 0 < p.stun_timer <;> by_cases hc : p.is_cpu <;>
    simp [Player.update, Player.cpu_control, h, hc, vp_update_x]

theorem player_update_horz_min_x (dt : ℚ) (ball : Ball) (p : Player) :
    (Player.update dt ball p).horz.min_x = p.horz.min_x := by
  by_cases h : 0 < p.stun_timer <;> by_cases hc : p.is_cpu <;>
    simp [Player.update, Player.cpu_control, h, hc, hp_update_min_x]

theorem player_update_horz_max_x (dt : ℚ) (ball : Ball) (p : Player) :
    (Player.update dt ball p).horz.max_x = p.horz.max_x := by
  by_cases h : 0 < p.stun_timer <;> by_cases hc : p.is_cpu <;>
    simp [Player.update, Player.cpu_control, h, hc, hp_update_max_x]

theorem player_update_horz_form (dt : ℚ) (ball : Ball) (p : Player) :
    ∃ (mv : ℚ) (en : Bool),
      (Player.update dt ball p).horz =
        HorizontalPaddle.update dt mv { p.horz with enabled := en } := by
  by_cases h : 0 < p.stun_timer
  · by_cases hc : p.is_cpu <;> simp [Player.update, Player.cpu_control, h, hc] <;>
      exact ⟨_, Or.inl rfl⟩
  · by_cases hc : p.is_cpu <;> simp [Player.update, Player.cpu_control, h, hc] <;>
      exact ⟨_, Or.inr rfl⟩

theorem player_update_horz_x_le (dt : ℚ) (ball : Ball) (p : Player) :
    (Player.update dt ball p).horz.x ≤
      max p.horz.x (max p.horz.min_x p.horz.max_x) := by
  obtain ⟨mv, en, hf⟩ := player_update_horz_form dt ball p
  rw [hf]
  exact hp_update_x_le dt mv { p.horz with enabled := en }

theorem playersTick_ball (dt : ℚ) (g : GameState) :
    (playersTick dt g).ball = g.ball := rfl

theorem playersTick_pl (dt : ℚ) (g : GameState) :
    (playersTick dt g).player_left = Player.update dt g.ball g.player_left := rfl

theorem playersTick_pr (dt : ℚ) (g : GameState) :
    (playersTick dt g).player_right = Player.update dt g.ball g.player_right := rfl

/-- C4 (amended): if, in the playing state, the ball's x exceeds
field_right + radius by a margin of at least 25 (enough to rule out a
last-moment pull-back by a vertical-paddle collision response, which was
the counterexample to the unqualified claim), the ball is not moving
left and dt is nonnegative, then one on_update call increments the left
player's score by exactly 1, leaves the right player's score unchanged,
re-enters countdown (with the 3-unit countdown), recenters the ball with
zero velocity, and clears burned_out and stun on all paddles, under the
construction-time bounds on paddle placement fields. -/
theorem C4_amended (c s dt0 : ℚ) (g g' : GameState)
    (htr : TrigOK c s) (hdt : 0 ≤ dt0)
    (hst : g.state = RState.playing)
    (hwf : PaddleBounds g)
    (hbx : FIELD_RIGHT + BALL_RADIUS + 25 ≤ g.ball.x)
    (hvx : 0 ≤ g.ball.vx)
    (hstep : GameStep c s dt0 g g') :
    g'.player_left.score = g.player_left.score + 1 ∧
    g'.player_right.score = g.player_right.score ∧
    g'.state = RState.countdown ∧
    g'.countdown = 3 ∧
    g'.ball = ⟨FIELD_CENTER_X, FIELD_CENTER_Y, 0, 0⟩ ∧
    g'.player_left.vert.burned_out = false ∧
    g'.player_left.horz.burned_out = false ∧
    g'.player_right.vert.burned_out = false ∧
    g'.player_right.horz.burned_out = false ∧
    g'.player_left.stun_timer = 0 ∧
    g'.player_right.stun_timer = 0 := by
  obtain ⟨hv1, hv2, hh1b, hh1min, hh1max, hh2b, hh2min, hh2max⟩ := hwf
  have hbx' : (1297 : ℚ) ≤ g.ball.x := by
    rw [fieldRight_eq, ballRadius_eq] at hbx
    linarith
  simp only [GameStep] at hstep
  rw [hst] at hstep
  rw [if_neg (by simp), if_neg (by simp)] at hstep
  simp only [playingRel] at hstep
  obtain ⟨b1, b3, b4, b5, b6, f1, f2, f3, f4, hball, hvc1, hvc2, hhc1, hhc2,
    hgfin⟩ := hstep
  set dtu := usedDt dt0 with hdtu
  have hdtu0 : 0 ≤ dtu := le_min hdt (by norm_num)
  set X := em_update dtu (msgDecay dtu g) with hX
  set G2 := playersTick dtu X with hG2
  have hg2ball : G2.ball = g.ball := by
    rw [hG2, playersTick_ball, hX, em_update_ball, msgDecay_ball]
  have hx1 : (1297 : ℚ) ≤ b1.x := by
    have h := ballStep_x hball
    rw [hg2ball] at h
    rw [h]
    have := mul_nonneg hvx hdtu0
    linarith
  have hvxl : G2.player_left.vert.x ≤ 1200 := by
    have e1 : G2.player_left.vert.x = X.player_left.vert.x := by
      rw [hG2, playersTick_pl, player_update_vert_x]
    have e2 : X.player_left.vert.x = g.player_left.vert.x := by
      rw [hX]
      rcases em_update_player_left dtu (msgDecay dtu g) with he | he <;> rw [he]
      · rw [fire_apply_vert_x, msgDecay_player_left]
      · rw [msgDecay_player_left]
    rw [e1, e2]
    exact hv1
  have hvxr : G2.player_right.vert.x ≤ 1200 := by
    have e1 : G2.player_right.vert.x = X.player_right.vert.x := by
      rw [hG2, playersTick_pr, player_update_vert_x]
    have e2 : X.player_right.vert.x = g.player_right.vert.x := by
      rw [hX]
      rcases em_update_player_right dtu (msgDecay dtu g) with he | he <;> rw [he]
      · rw [fire_apply_vert_x, msgDecay_player_right]
      · rw [msgDecay_player_right]
    rw [e1, e2]
    exact hv2
  have hm1 : ¬ vert_overlap c s G2.player_left.vert (wallBounce b1) :=
    vert_overlap_far htr hvxl (by rw [wallBounce_x]; exact hx1)
  obtain ⟨hb3, hf1⟩ := collide_vert_miss_elim hvc1 hm1
  have hm2 : ¬ vert_overlap c s G2.player_right.vert b3 := by
    rw [hb3]
    exact vert_overlap_far htr hvxr (by rw [wallBounce_x]; exact hx1)
  obtain ⟨hb4, hf2⟩ := collide_vert_miss_elim hvc2 hm2
  have hxl : G2.player_left.horz.x ≤ 730 := by
    have e1 : G2.player_left.horz.x ≤
        max X.player_left.horz.x
          (max X.player_left.horz.min_x X.player_left.horz.max_x) := by
      rw [hG2, playersTick_pl]
      exact player_update_horz_x_le _ _ _
    have e2 : X.player_left.horz.x = g.player_left.horz.x ∧
        X.player_left.horz.min_x = g.player_left.horz.min_x ∧
        X.player_left.horz.max_x = g.player_left.horz.max_x := by
      rw [hX]
      rcases em_update_player_left dtu (msgDecay dtu g) with he | he <;> rw [he]
      · rw [fire_apply_horz_x, fire_apply_horz_min_x, fire_apply_horz_max_x,
          msgDecay_player_left]
        exact ⟨rfl, rfl, rfl⟩
      · rw [msgDecay_player_left]
        exact ⟨rfl, rfl, rfl⟩
    rw [e2.1, e2.2.1, e2.2.2] at e1
    exact le_trans e1 (max_le hh1b (max_le hh1min hh1max))
  have hxr : G2.player_right.horz.x ≤ 1210 := by
    have e1 : G2.player_right.horz.x ≤
        max X.player_right.horz.x
          (max X.player_right.horz.min_x X.player_right.horz.max_x) := by
      rw [hG2, playersTick_pr]
      exact player_update_horz_x_le _ _ _
    have e2 : X.player_right.horz.x = g.player_right.horz.x ∧
        X.player_right.horz.min_x = g.player_right.horz.min_x ∧
        X.player_right.horz.max_x = g.player_right.horz.max_x := by
      rw [hX]
      rcases em_update_player_right dtu (msgDecay dtu g) with he | he <;> rw [he]
      · rw [fire_apply_horz_x, fire_apply_horz_min_x, fire_apply_horz_max_x,
          msgDecay_player_right]
        exact ⟨rfl, rfl, rfl⟩
      · rw [msgDecay_player_right]
        exact ⟨rfl, rfl, rfl⟩
    rw [e2.1, e2.2.1, e2.2.2] at e1
    exact le_trans e1 (max_le hh2b (max_le hh2min hh2max))
  have hmx3 : collide_ball_with_horizontal_paddle b4 G2.player_left.horz =
      some (b4, false) := by
    apply horz_collide_miss_x
    rw [hb4, hb3, wallBounce_x, ballRadius_eq]
    norm_num [HOR_PADDLE_WIDTH]
    linarith
  rw [hmx3] at hhc1
  simp only [Option.some.injEq, Prod.mk.injEq] at hhc1
  obtain ⟨hb5, hf3⟩ := hhc1
  have hmx4 : collide_ball_with_horizontal_paddle b5 G2.player_right.horz =
      some (b5, false) := by
    apply horz_collide_miss_x
    rw [← hb5, hb4, hb3, wallBounce_x, ballRadius_eq]
    norm_num [HOR_PADDLE_WIDTH]
    linarith
  rw [hmx4] at hhc2
  simp only [Option.some.injEq, Prod.mk.injEq] at hhc2
  obtain ⟨hb6, hf4⟩ := hhc2
  have hB : (if f1 || f2 || f3 || f4 then boost b6 else b6) = b6 := by
    rw [hf1, hf2, ← hf3, ← hf4]
    rfl
  rw [hB] at hgfin
  have hb6x : b6.x = b1.x := by
    rw [← hb6, ← hb5, hb4, hb3, wallBounce_x]
  have hscl : G2.player_left.score = g.player_left.score := by
    rw [hG2, playersTick_pl, player_update_score, hX]
    rcases em_update_player_left dtu (msgDecay dtu g) with he | he <;> rw [he]
    · rw [fire_apply_score, msgDecay_player_left]
    · rw [msgDecay_player_left]
  have hscr : G2.player_right.score = g.player_right.score := by
    rw [hG2, playersTick_pr, player_update_score, hX]
    rcases em_update_player_right dtu (msgDecay dtu g) with he | he <;> rw [he]
    · rw [fire_apply_score, msgDecay_player_right]
    · rw [msgDecay_player_right]
  rw [hgfin]
  unfold goal_check
  rw [show ({ G2 with ball := b6 } : GameState).ball = b6 from rfl]
  rw [if_neg (by rw [hb6x, ballRadius_eq, fieldLeft_eq]; intro hcon; linarith),
    if_pos (by rw [hb6x, ballRadius_eq, fieldRight_eq]; linarith)]
  refine ⟨?_, ?_, rfl, rfl, rfl, rfl, rfl, rfl, rfl, rfl, rfl⟩
  · show G2.player_left.score + 1 = g.player_left.score + 1
    rw [hscl]
  · show G2.player_right.score = g.player_right.score
    exact hscr

/-! ## Constructing concrete playing ticks -/

theorem fire_apply_eq_of_not_wood (p : Player)
    (h : ¬ p.vert.material_name = "дерево") : fire_apply p = p := by
  unfold fire_apply
  rw [if_neg h]

theorem msgDecay_state (dt : ℚ) (g : GameState) :
    (msgDecay dt g).state = g.state := by
  unfold msgDecay
  split <;> rfl

theorem em_update_state (dt : ℚ) (g : GameState) :
    (em_update dt g).state = g.state := by
  simp only [em_update]
  split <;> rfl

theorem playersTick_state (dt : ℚ) (g : GameState) :
    (playersTick dt g).state = g.state := rfl

/-- For a state whose players both hold a non-burnable material, the
message decay, event scheduler and player updates of a playing tick leave
the ball untouched, update each player purely from the pre-tick state,
and preserve the round state. -/
theorem tick_core_eval (u : ℚ) (g0 : GameState)
    (hw1 : ¬ g0.player_left.vert.material_name = "дерево")
    (hw2 : ¬ g0.player_right.vert.material_name = "дерево") :
    (playersTick u (em_update u (msgDecay u g0))).ball = g0.ball ∧
    (playersTick u (em_update u (msgDecay u g0))).player_left =
      Player.update u g0.ball g0.player_left ∧
    (playersTick u (em_update u (msgDecay u g0))).player_right =
      Player.update u g0.ball g0.player_right ∧
    (playersTick u (em_update u (msgDecay u g0))).state = g0.state := by
  have hxb : (em_update u (msgDecay u g0)).ball = g0.ball := by
    rw [em_update_ball, msgDecay_ball]
  have hxl : (em_update u (msgDecay u g0)).player_left = g0.player_left := by
    rcases em_update_player_left u (msgDecay u g0) with he | he <;>
      rw [he, msgDecay_player_left]
    exact fire_apply_eq_of_not_wood _ hw1
  have hxr : (em_update u (msgDecay u g0)).player_right = g0.player_right := by
    rcases em_update_player_right u (msgDecay u g0) with he | he <;>
      rw [he, msgDecay_player_right]
    exact fire_apply_eq_of_not_wood _ hw2
  refine ⟨?_, ?_, ?_, ?_⟩
  · rw [playersTick_ball, hxb]
  · rw [playersTick_pl, hxb, hxl]
  · rw [playersTick_pr, hxb, hxr]
  · rw [playersTick_state, em_update_state, msgDecay_state]

theorem gameStep_playing_intro (c s dt0 : ℚ) (g g' : GameState)
    (hst : g.state = RState.playing)
    (h : playingRel c s (usedDt dt0) (msgDecay (usedDt dt0) g) g') :
    GameStep c s dt0 g g' := by
  unfold GameStep
  rw [hst]
  rw [if_neg (by simp), if_neg (by simp)]
  exact h

theorem playingRel_intro (c s dt : ℚ) (g g' : GameState)
    (b1 b3 b4 b5 b6 : Ball) (h1 h2 h3 h4 : Bool)
    (hB : BallStep dt (playersTick dt (em_update dt g)).ball b1)
    (hV1 : collide_ball_with_vertical_paddle c s
      (playersTick dt (em_update dt g)).player_left.vert (wallBounce b1) b3 h1)
    (hV2 : collide_ball_with_vertical_paddle c s
      (playersTick dt (em_update dt g)).player_right.vert b3 b4 h2)
    (hH1 : collide_ball_with_horizontal_paddle b4
      (playersTick dt (em_update dt g)).player_left.horz = some (b5, h3))
    (hH2 : collide_ball_with_horizontal_paddle b5
      (playersTick dt (em_update dt g)).player_right.horz = some (b6, h4))
    (hG : g' = goal_check { playersTick dt (em_update dt g) with
      ball := if h1 || h2 || h3 || h4 then boost b6 else b6 }) :
    playingRel c s dt g g' :=
  ⟨b1, b3, b4, b5, b6, h1, h2, h3, h4, hB, hV1, hV2, hH1, hH2, hG⟩

theorem horz_collide_miss_x_left {b : Ball} {p : HorizontalPaddle}
    (h : b.x < p.x - HOR_PADDLE_WIDTH / 2 - BALL_RADIUS) :
    collide_ball_with_horizontal_paddle b p = some (b, false) := by
  unfold collide_ball_with_horizontal_paddle
  by_cases hb : p.burned_out = true
  · rw [if_pos hb]
  · rw [if_neg hb, if_neg]
    rintro ⟨h1, -, -, -⟩
    linarith

/-- C9: the speed cap lives only in Ball.update, which runs before
collision resolution, so a tick in which the ball strikes a horizontal
rubber paddle at high speed ends with the ball's speed strictly above
BALL_MAX_SPEED (bounce times power scaling of the forced vertical
component, plus the 1.01 rally boost), and the overspeed persists into
the next tick until that tick's Ball.update clamps it back under the
cap. The pre-state satisfies the construction-time paddle bounds and the
pre-tick ball speed is under the cap. -/
theorem C9_speed_cap_exceeded :
    ∃ (c s dt : ℚ) (g g' : GameState),
      TrigOK c s ∧ PaddleBounds g ∧ g.state = RState.playing ∧
      speedSq g.ball ≤ BALL_MAX_SPEED ^ 2 ∧
      GameStep c s dt g g' ∧
      g'.state = RState.playing ∧
      BALL_MAX_SPEED ^ 2 < speedSq g'.ball ∧
      (∀ (dt2 : ℚ) (b'' : Ball), BallStep dt2 g'.ball b'' →
        speedSq b'' ≤ BALL_MAX_SPEED ^ 2) := by
  have hu : usedDt (1/30) = 1/30 := by norm_num [usedDt, min_def]
  obtain ⟨hcb, hcl, hcr, hcs⟩ :=
    tick_core_eval (usedDt (1/30)) c9_state (by decide) (by decide)
  set G2 := playersTick (usedDt (1/30))
    (em_update (usedDt (1/30)) (msgDecay (usedDt (1/30)) c9_state)) with hG2def
  have hplv : G2.player_left = c9_state.player_left := by
    rw [hcl, hu]
    norm_num [c9_state, Player.update, Player.cpu_control,
      VerticalPaddle.update, HorizontalPaddle.update, clamp, min_def, max_def,
      PADDLE_SPEED, fieldBottom_eq, fieldTop_eq, VERT_PADDLE_LENGTH,
      Player.mk.injEq, VerticalPaddle.mk.injEq, HorizontalPaddle.mk.injEq]
  have hprv : G2.player_right = c9_state.player_right := by
    rw [hcr, hu]
    norm_num [c9_state, Player.update, Player.cpu_control,
      VerticalPaddle.update, HorizontalPaddle.update, clamp, min_def, max_def,
      PADDLE_SPEED, fieldBottom_eq, fieldTop_eq, VERT_PADDLE_LENGTH,
      Player.mk.injEq, VerticalPaddle.mk.injEq, HorizontalPaddle.mk.injEq]
  have hwb : wallBounce ⟨380, 3406/9, 0, -3740/3⟩ = ⟨380, 3406/9, 0, -3740/3⟩ := by
    unfold wallBounce
    rw [if_neg (by norm_num [fieldBottom_eq, ballRadius_eq]),
      if_neg (by norm_num [fieldTop_eq, ballRadius_eq])]
  have hstep : GameStep (433/500) (1/2) (1/30) c9_state
      (goal_check { G2 with ball := if (false || false || true || false : Bool)
        then (boost ⟨380, 763/2, 0, 57134/25⟩)
        else ⟨380, 763/2, 0, 57134/25⟩ }) := by
    apply gameStep_playing_intro _ _ _ _ _ rfl
    refine playingRel_intro _ _ _ _ _ ⟨380, 3406/9, 0, -3740/3⟩
      ⟨380, 3406/9, 0, -3740/3⟩ ⟨380, 3406/9, 0, -3740/3⟩
      ⟨380, 763/2, 0, 57134/25⟩ ⟨380, 763/2, 0, 57134/25⟩
      false false true false ?_ ?_ ?_ ?_ ?_ rfl
    · rw [← hG2def, hcb, hu]
      exact Or.inl ⟨by norm_num [c9_state, gravity_eq, ballMax_eq],
        by norm_num [c9_state, gravity_eq, Ball.mk.injEq]⟩
    · rw [← hG2def, hwb, hplv]
      exact collide_vert_miss_intro (by norm_num [c9_state, vert_overlap,
        VerticalPaddle.get_segment, closest_point_on_segment, clamp, min_def,
        max_def, VERT_PADDLE_LENGTH, VERT_PADDLE_THICKNESS, ballRadius_eq])
    · rw [← hG2def, hprv]
      exact collide_vert_miss_intro (by norm_num [c9_state, vert_overlap,
        VerticalPaddle.get_segment, closest_point_on_segment, clamp, min_def,
        max_def, VERT_PADDLE_LENGTH, VERT_PADDLE_THICKNESS, ballRadius_eq])
    · rw [← hG2def, hplv]
      rw [horz_collide_hit (m := ⟨"резина", 12/10, 11/10, 1/20, false⟩) rfl
        (by simp [c9_state, material_find])
        (by norm_num [c9_state, horPaddleY_eq, HOR_PADDLE_WIDTH,
          HOR_PADDLE_THICKNESS, ballRadius_eq])]
      norm_num [horPaddleY_eq, HOR_PADDLE_THICKNESS, ballRadius_eq, damp_eq,
        Option.some.injEq, Prod.mk.injEq, Ball.mk.injEq, abs_eq_max_neg, max_def]
    · rw [← hG2def, hprv]
      exact horz_collide_miss_x_left (by norm_num [c9_state, HOR_PADDLE_WIDTH,
        ballRadius_eq])
  have hRAball : ({ G2 with ball := if (false || false || true || false : Bool)
      then (boost ⟨380, 763/2, 0, 57134/25⟩)
      else ⟨380, 763/2, 0, 57134/25⟩ } : GameState).ball =
      ⟨380, 763/2, 0, 2885267/1250⟩ := by
    show (if (false || false || true || false : Bool)
      then (boost ⟨(380 : ℚ), 763/2, 0, 57134/25⟩)
      else ⟨380, 763/2, 0, 57134/25⟩) = _
    norm_num [boost, Ball.mk.injEq]
  have hgoal : goal_check { G2 with
      ball := if (false || false || true || false : Bool)
        then (boost ⟨380, 763/2, 0, 57134/25⟩)
        else ⟨380, 763/2, 0, 57134/25⟩ } =
      { G2 with ball := if (false || false || true || false : Bool)
        then (boost ⟨380, 763/2, 0, 57134/25⟩)
        else ⟨380, 763/2, 0, 57134/25⟩ } := by
    unfold goal_check
    rw [hRAball]
    rw [if_neg (by norm_num [ballRadius_eq, fieldLeft_eq]),
      if_neg (by norm_num [ballRadius_eq, fieldRight_eq])]
  refine ⟨433/500, 1/2, 1/30, c9_state, _, by norm_num [TrigOK],
    by norm_num [PaddleBounds, c9_state], rfl,
    by norm_num [speedSq, c9_state, ballMax_eq], hstep, ?_, ?_, ?_⟩
  · rw [hgoal]
    show G2.state = RState.playing
    rw [hcs]
    rfl
  · rw [hgoal, hRAball]
    norm_num [speedSq, ballMax_eq]
  · exact fun dt2 b'' h => ballStep_speedSq_le h

/-- C4 counterexample: with the ball set just beyond field_right + radius
(x = 1272.5, so the leading edge is 0.5 past the line) but moving left at
600 units per second, one on_update call moves the ball back inside the
field before the goal test runs: no goal is detected, the left player's
score is unchanged and the round stays in the playing state — so one
advance call does not always score once the ball is past the line. -/
theorem C4_counterexample :
    ∃ (c s dt : ℚ) (g g' : GameState),
      TrigOK c s ∧ PaddleBounds g ∧ g.state = RState.playing ∧
      FIELD_RIGHT + BALL_RADIUS < g.ball.x ∧
      GameStep c s dt g g' ∧
      g'.player_left.score = g.player_left.score ∧
      g'.state = RState.playing := by
  have hu : usedDt (1/30) = 1/30 := by norm_num [usedDt, min_def]
  obtain ⟨hcb, hcl, hcr, hcs⟩ :=
    tick_core_eval (usedDt (1/30)) c4cx_state (by decide) (by decide)
  set G2 := playersTick (usedDt (1/30))
    (em_update (usedDt (1/30)) (msgDecay (usedDt (1/30)) c4cx_state)) with hG2def
  have hplv : G2.player_left = c4cx_state.player_left := by
    rw [hcl, hu]
    norm_num [c4cx_state, Player.update, Player.cpu_control,
      VerticalPaddle.update, HorizontalPaddle.update, clamp, min_def, max_def,
      PADDLE_SPEED, fieldBottom_eq, fieldTop_eq, VERT_PADDLE_LENGTH,
      Player.mk.injEq, VerticalPaddle.mk.injEq, HorizontalPaddle.mk.injEq]
  have hprv : G2.player_right = c4cx_state.player_right := by
    rw [hcr, hu]
    norm_num [c4cx_state, Player.update, Player.cpu_control,
      VerticalPaddle.update, HorizontalPaddle.update, clamp, min_def, max_def,
      PADDLE_SPEED, fieldBottom_eq, fieldTop_eq, VERT_PADDLE_LENGTH,
      Player.mk.injEq, VerticalPaddle.mk.injEq, HorizontalPaddle.mk.injEq]
  have hwb : wallBounce ⟨2505/2, 3766/9, -600, -140/3⟩ =
      ⟨2505/2, 3766/9, -600, -140/3⟩ := by
    unfold wallBounce
    rw [if_neg (by norm_num [fieldBottom_eq, ballRadius_eq]),
      if_neg (by norm_num [fieldTop_eq, ballRadius_eq])]
  have hstep : GameStep (433/500) (1/2) (1/30) c4cx_state
      (goal_check { G2 with ball := if (false || false || false || false : Bool)
        then (boost ⟨2505/2, 3766/9, -600, -140/3⟩)
        else ⟨2505/2, 3766/9, -600, -140/3⟩ }) := by
    apply gameStep_playing_intro _ _ _ _ _ rfl
    refine playingRel_intro _ _ _ _ _ ⟨2505/2, 3766/9, -600, -140/3⟩
      ⟨2505/2, 3766/9, -600, -140/3⟩ ⟨2505/2, 3766/9, -600, -140/3⟩
      ⟨2505/2, 3766/9, -600, -140/3⟩ ⟨2505/2, 3766/9, -600, -140/3⟩
      false false false false ?_ ?_ ?_ ?_ ?_ rfl
    · rw [← hG2def, hcb, hu]
      exact Or.inl ⟨by norm_num [c4cx_state, gravity_eq, ballMax_eq],
        by norm_num [c4cx_state, gravity_eq, Ball.mk.injEq]⟩
    · rw [← hG2def, hwb, hplv]
      exact collide_vert_miss_intro (by norm_num [c4cx_state, vert_overlap,
        VerticalPaddle.get_segment, closest_point_on_segment, clamp, min_def,
        max_def, VERT_PADDLE_LENGTH, VERT_PADDLE_THICKNESS, ballRadius_eq])
    · rw [← hG2def, hprv]
      exact collide_vert_miss_intro (by norm_num [c4cx_state, vert_overlap,
        VerticalPaddle.get_segment, closest_point_on_segment, clamp, min_def,
        max_def, VERT_PADDLE_LENGTH, VERT_PADDLE_THICKNESS, ballRadius_eq])
    · rw [← hG2def, hplv]
      exact horz_collide_miss_y_above (by norm_num [horPaddleY_eq,
        HOR_PADDLE_THICKNESS, ballRadius_eq])
    · rw [← hG2def, hprv]
      exact horz_collide_miss_y_above (by norm_num [horPaddleY_eq,
        HOR_PADDLE_THICKNESS, ballRadius_eq])
  have hRAball : ({ G2 with
      ball := if (false || false || false || false : Bool)
        then (boost ⟨2505/2, 3766/9, -600, -140/3⟩)
        else ⟨2505/2, 3766/9, -600, -140/3⟩ } : GameState).ball =
      ⟨2505/2, 3766/9, -600, -140/3⟩ := rfl
  have hgoal : goal_check { G2 with
      ball := if (false || false || false || false : Bool)
        then (boost ⟨2505/2, 3766/9, -600, -140/3⟩)
        else ⟨2505/2, 3766/9, -600, -140/3⟩ } =
      { G2 with ball := if (false || false || false || false : Bool)
        then (boost ⟨2505/2, 3766/9, -600, -140/3⟩)
        else ⟨2505/2, 3766/9, -600, -140/3⟩ } := by
    unfold goal_check
    rw [hRAball]
    rw [if_neg (by norm_num [ballRadius_eq, fieldLeft_eq]),
      if_neg (by norm_num [ballRadius_eq, fieldRight_eq])]
  refine ⟨433/500, 1/2, 1/30, c4cx_state, _, by norm_num [TrigOK],
    by norm_num [PaddleBounds, c4cx_state], rfl,
    by norm_num [c4cx_state, fieldRight_eq, ballRadius_eq], hstep, ?_, ?_⟩
  · rw [hgoal]
    show G2.player_left.score = c4cx_state.player_left.score
    rw [hplv]
  · rw [hgoal]
    show G2.state = RState.playing
    rw [hcs]
    rfl

/-- Witness for C4 (amended): from a concrete playing state with the
ball at rest at x = 1300, one on_update call scores for the left player
and resets the round. -/
theorem C4_amended_witness :
    ∃ (g' : GameState),
      GameStep (433/500) (1/2) (1/30) c4w_state g' ∧
      g'.player_left.score = c4w_state.player_left.score + 1 ∧
      g'.player_right.score = c4w_state.player_right.score ∧
      g'.state = RState.countdown ∧
      g'.ball = ⟨FIELD_CENTER_X, FIELD_CENTER_Y, 0, 0⟩ := by
  have hu : usedDt (1/30) = 1/30 := by norm_num [usedDt, min_def]
  obtain ⟨hcb, hcl, hcr, hcs⟩ :=
    tick_core_eval (usedDt (1/30)) c4w_state (by decide) (by decide)
  set G2 := playersTick (usedDt (1/30))
    (em_update (usedDt (1/30)) (msgDecay (usedDt (1/30)) c4w_state)) with hG2def
  have hplv : G2.player_left = c4w_state.player_left := by
    rw [hcl, hu]
    norm_num [c4w_state, Player.update, Player.cpu_control,
      VerticalPaddle.update, HorizontalPaddle.update, clamp, min_def, max_def,
      PADDLE_SPEED, fieldBottom_eq, fieldTop_eq, VERT_PADDLE_LENGTH,
      Player.mk.injEq, VerticalPaddle.mk.injEq, HorizontalPaddle.mk.injEq]
  have hprv : G2.player_right = c4w_state.player_right := by
    rw [hcr, hu]
    norm_num [c4w_state, Player.update, Player.cpu_control,
      VerticalPaddle.update, HorizontalPaddle.update, clamp, min_def, max_def,
      PADDLE_SPEED, fieldBottom_eq, fieldTop_eq, VERT_PADDLE_LENGTH,
      Player.mk.injEq, VerticalPaddle.mk.injEq, HorizontalPaddle.mk.injEq]
  have hwb : wallBounce ⟨1300, 3766/9, 0, -140/3⟩ =
      ⟨1300, 3766/9, 0, -140/3⟩ := by
    unfold wallBounce
    rw [if_neg (by norm_num [fieldBottom_eq, ballRadius_eq]),
      if_neg (by norm_num [fieldTop_eq, ballRadius_eq])]
  have hstep : GameStep (433/500) (1/2) (1/30) c4w_state
      (goal_check { G2 with ball := if (false || false || false || false : Bool)
        then (boost ⟨1300, 3766/9, 0, -140/3⟩)
        else ⟨1300, 3766/9, 0, -140/3⟩ }) := by
    apply gameStep_playing_intro _ _ _ _ _ rfl
    refine playingRel_intro _ _ _ _ _ ⟨1300, 3766/9, 0, -140/3⟩
      ⟨1300, 3766/9, 0, -140/3⟩ ⟨1300, 3766/9, 0, -140/3⟩
      ⟨1300, 3766/9, 0, -140/3⟩ ⟨1300, 3766/9, 0, -140/3⟩
      false false false false ?_ ?_ ?_ ?_ ?_ rfl
    · rw [← hG2def, hcb, hu]
      exact Or.inl ⟨by norm_num [c4w_state, gravity_eq, ballMax_eq],
        by norm_num [c4w_state, gravity_eq, Ball.mk.injEq]⟩
    · rw [← hG2def, hwb, hplv]
      exact collide_vert_miss_intro (by norm_num [c4w_state, vert_overlap,
        VerticalPaddle.get_segment, closest_point_on_segment, clamp, min_def,
        max_def, VERT_PADDLE_LENGTH, VERT_PADDLE_THICKNESS, ballRadius_eq])
    · rw [← hG2def, hprv]
      exact collide_vert_miss_intro (by norm_num [c4w_state, vert_overlap,
        VerticalPaddle.get_segment, closest_point_on_segment, clamp, min_def,
        max_def, VERT_PADDLE_LENGTH, VERT_PADDLE_THICKNESS, ballRadius_eq])
    · rw [← hG2def, hplv]
      exact horz_collide_miss_y_above (by norm_num [horPaddleY_eq,
        HOR_PADDLE_THICKNESS, ballRadius_eq])
    · rw [← hG2def, hprv]
      exact horz_collide_miss_y_above (by norm_num [horPaddleY_eq,
        HOR_PADDLE_THICKNESS, ballRadius_eq])
  have h := C4_amended (433/500) (1/2) (1/30) c4w_state _
    (by norm_num [TrigOK]) (by norm_num) rfl
    (by norm_num [PaddleBounds, c4w_state])
    (by norm_num [c4w_state, fieldRight_eq, ballRadius_eq])
    (by norm_num [c4w_state]) hstep
  exact ⟨_, hstep, h.1, h.2.1, h.2.2.1, h.2.2.2.2.1⟩

end Pong
